import Mathlib

set_option maxHeartbeats 1000000

/-!
Verification development for the oscapxml SCAP source data stream parser.

The Rust sources (`utils.rs`, `sds.rs`, `xccdf.rs`) map a generic XML
element tree (as provided by the `minidom` crate) into a typed document
model.  This file gives a shallow embedding of that code: XML trees are
modelled by `XElement`/`XNode`, fallible mapping operations return a
`Res` value which is either `ok`, an `err` with the exact message string
built by the source, or `panicked` (the outcome of a Rust `unwrap()` on
an `Err`, which aborts the process instead of returning).
-/

namespace Oscap

mutual
/-- A generic XML tree, mirroring `minidom::Element`: local name, resolved
namespace, attribute list (name/value pairs, looked up by first match) and
the ordered list of child nodes (text nodes and element nodes). -/
inductive XElement : Type where
  | mk (name ns : String) (attrs : List (String × String)) (nodes : List XNode)

/-- A child node of a `minidom` element: a text node or an element node. -/
inductive XNode : Type where
  | text (s : String)
  | elem (e : XElement)
end

/-- `Element::name()`. -/
def XElement.name : XElement → String
  | .mk n _ _ _ => n

/-- `Element::ns()`. -/
def XElement.ns : XElement → String
  | .mk _ ns _ _ => ns

/-- The attribute list of the element. -/
def XElement.attrList : XElement → List (String × String)
  | .mk _ _ a _ => a

/-- The ordered node list of the element (`Element::nodes()`). -/
def XElement.nodes : XElement → List XNode
  | .mk _ _ _ ns => ns

/-- `Element::attr(name)`: the value of the attribute, if present. -/
def XElement.attr (el : XElement) (name : String) : Option String :=
  (el.attrList.find? (fun p => p.1 = name)).map (fun p => p.2)

/-- `Element::is(name, ns)`: does the element carry this local name and
namespace? -/
def XElement.isElem (el : XElement) (name ns : String) : Bool :=
  el.name = name && el.ns = ns

/-- The element children of a node list, in document order (text nodes
are skipped), as iterated by `Element::children()`. -/
def elemsOf : List XNode → List XElement
  | [] => []
  | .text _ :: rest => elemsOf rest
  | .elem e :: rest => e :: elemsOf rest

/-- `Element::children()` of an element. -/
def XElement.children (el : XElement) : List XElement :=
  elemsOf el.nodes

/-- `Element::get_child(name, ns)`: the first element child with the given
name and namespace, if any. -/
def XElement.getChild (el : XElement) (name ns : String) : Option XElement :=
  el.children.find? (fun c => c.isElem name ns)

mutual
/-- `Element::text()`: the concatenation, in document order, of every text
node in the element, descendants included. -/
def XElement.textOf : XElement → String
  | .mk _ _ _ ns => XNode.listText ns

/-- Concatenated text of a node list, recursively. -/
def XNode.listText : List XNode → String
  | [] => ""
  | .text s :: rest => s ++ XNode.listText rest
  | .elem e :: rest => XElement.textOf e ++ XNode.listText rest
end

/-- Outcome of a fallible Rust mapping operation: a value, an error
message propagated via `Result`, or a process abort caused by `unwrap()`
on an `Err` value. -/
inductive Res (α : Type) : Type where
  | ok (a : α)
  | err (msg : String)
  | panicked
deriving DecidableEq

/-- Is the outcome a success? -/
def Res.isOk : Res α → Bool
  | .ok _ => true
  | _ => false

/-- Map over a successful outcome. -/
def Res.map (f : α → β) : Res α → Res β
  | .ok a => .ok (f a)
  | .err e => .err e
  | .panicked => .panicked

/-- Rust's `str::replace("\n", " ")` for the single-character pattern used
by the source: every newline character becomes a space. -/
def replaceNl (s : String) : String :=
  String.mk (s.data.map (fun c => if c = '\n' then ' ' else c))

/-- Debug formatting of a `Vec<&str>` as produced by Rust's `{:?}`,
e.g. `["full", "unscored"]`. -/
def fmtOptions (options : List String) : String :=
  "[" ++ String.intercalate ", " (options.map (fun s => "\"" ++ s ++ "\"")) ++ "]"

/-- Rust's `str::parse::<bool>()`: accepts exactly "true" and "false". -/
def parseBool (s : String) : Option Bool :=
  if s = "true" then some true
  else if s = "false" then some false
  else none

/-- `utils::get_attr`. -/
def get_attr (el : XElement) (attr : String) : Option String :=
  el.attr attr

/-- The message of `utils::get_attr_default` for an unparseable value:
`Element '<name>' attribute '<attr>' can't parse value '<val>'.` -/
def parseFailMsg (el : XElement) (attr val : String) : String :=
  "Element '" ++ el.name ++ "' attribute '" ++ attr ++
    "' can't parse value '" ++ val ++ "'."

/-- The message of the `_options` accessors for a disallowed value:
`Element '<name>' attribute '<attr>'='<val>', but expected one of [...]`. -/
def enumMsg (el : XElement) (attr val : String) (opts : List String) : String :=
  "Element '" ++ el.name ++ "' attribute '" ++ attr ++ "'='" ++ val ++
    "', but expected one of " ++ fmtOptions opts

/-- The message of `utils::require_attr` for an absent attribute:
`Element '<name>' doesn't have required '<attr>' attribute`. -/
def missingAttrMsg (el : XElement) (attr : String) : String :=
  "Element '" ++ el.name ++ "' doesn't have required '" ++ attr ++ "' attribute"

/-- `utils::get_attr_default`, generic over the `FromStr` conversion of the
target type, here passed explicitly as `parse`. -/
def get_attr_default (parse : String → Option α) (el : XElement) (name : String)
    (default : α) : Res α :=
  match el.attr name with
  | some val =>
    match parse val with
    | some x => .ok x
    | none => .err (parseFailMsg el name val)
  | none => .ok default

/-- `utils::get_attr_default_options` (the `T = String` conversion always
succeeds). -/
def get_attr_default_options (el : XElement) (name default : String)
    (options : List String) : Res String :=
  match get_attr_default (fun s => some s) el name default with
  | .ok val =>
    if options.contains val then .ok val
    else .err (enumMsg el name val options)
  | .err e => .err e
  | .panicked => .panicked

/-- `utils::require_attr`. -/
def require_attr (el : XElement) (attr : String) : Res String :=
  match el.attr attr with
  | some val => .ok val
  | none => .err (missingAttrMsg el attr)

/-- `utils::require_attr_options`. -/
def require_attr_options (el : XElement) (attr : String)
    (options : List String) : Res String :=
  match require_attr el attr with
  | .ok val =>
    if options.contains val then .ok val
    else .err (enumMsg el attr val options)
  | .err e => .err e
  | .panicked => .panicked

/-- Modelled from the spec: `get_attr_default_bool` is called throughout
`xccdf.rs` but its definition is not among the analyzed sources.  Per the
spec's Generic Element Accessor section it parses the attribute value into
a boolean if present, else returns the supplied default, and fails with a
parse error if the present value cannot be converted. -/
def get_attr_default_bool (el : XElement) (name : String) (default : Bool) :
    Res Bool :=
  get_attr_default parseBool el name default

/-- The flattening step of `utils::html_to_string` over a node list. -/
def htmlNodes : List XNode → String
  | [] => ""
  | .text x :: rest => replaceNl x ++ htmlNodes rest
  | .elem x :: rest =>
    (if x.name = "br" then "\n" else replaceNl x.textOf) ++ htmlNodes rest

/-- `utils::html_to_string`. -/
def html_to_string (el : XElement) : String :=
  htmlNodes el.nodes

/-! ## xccdf.rs: leaf value types -/

/-- Fold a digit list into its decimal value; `none` on a non-digit. -/
def decDigits? (cs : List Char) : Option Nat :=
  cs.foldl
    (fun acc c =>
      match acc with
      | none => none
      | some n => if c.isDigit then some (10 * n + (c.toNat - 48)) else none)
    (some 0)

/-- Split a character list at the first exponent marker `e`/`E`. -/
def splitAtExp : List Char → List Char × Option (List Char)
  | [] => ([], none)
  | c :: r =>
    if c = 'e' ∨ c = 'E' then ([], some r)
    else
      let p := splitAtExp r
      (c :: p.1, p.2)

/-- Split a character list at the first decimal point. -/
def splitAtDot : List Char → List Char × Option (List Char)
  | [] => ([], none)
  | c :: r =>
    if c = '.' then ([], some r)
    else
      let p := splitAtDot r
      (c :: p.1, p.2)

/-- Rust's `str::parse::<f64>()`: optional sign, then `inf`, `infinity` or
`nan` (case-insensitive), or a decimal number with optional fraction and
optional exponent, requiring at least one mantissa digit. -/
def parseF64 (s : String) : Option Float :=
  let step1 : Bool × List Char :=
    match s.data with
    | '+' :: r => (false, r)
    | '-' :: r => (true, r)
    | r => (false, r)
  let neg := step1.1
  let body := step1.2
  let lower := body.map Char.toLower
  if lower = "inf".data ∨ lower = "infinity".data then
    some (if neg then -(1.0 / 0.0) else 1.0 / 0.0)
  else if lower = "nan".data then some (0.0 / 0.0)
  else
    let me := splitAtExp body
    let md := splitAtDot me.1
    let ip := md.1
    let fp := (md.2).getD []
    if ip = [] ∧ fp = [] then none
    else
      match decDigits? ip, decDigits? fp with
      | some i, some f =>
        let mant : Float :=
          Float.ofNat (i * 10 ^ fp.length + f) / Float.ofNat (10 ^ fp.length)
        let signed := if neg then -mant else mant
        match me.2 with
        | none => some signed
        | some ecs =>
          let estep : Bool × List Char :=
            match ecs with
            | '+' :: r => (false, r)
            | '-' :: r => (true, r)
            | r => (false, r)
          if estep.2 = [] then none
          else
            match decDigits? estep.2 with
            | some e =>
              some (if estep.1 then signed / Float.ofNat (10 ^ e)
                    else signed * Float.ofNat (10 ^ e))
            | none => none
      | _, _ => none

/-- The XCCDF 1.2 namespace constant of `xccdf.rs`. -/
def XCCDF12_NS : String := "http://checklists.nist.gov/xccdf/1.2"

/-- `xccdf::Status`. -/
structure Status where
  date : Option String
  status : String
deriving DecidableEq

/-- `Status::from_xml`. -/
def Status.from_xml (el : XElement) : Res Status :=
  let date := get_attr el "date"
  let status := el.textOf
  let allowed_statuses := ["incomplete", "draft", "interim", "accepted", "deprecated"]
  if ¬ allowed_statuses.contains status then
    .err ("Unexpected xccdf:status value: '" ++ status)
  else .ok ⟨date, status⟩

/-- `xccdf::Title`. -/
structure Title where
  title : String
deriving DecidableEq

/-- `Title::from_xml`. -/
def Title.from_xml (el : XElement) : Res Title :=
  .ok ⟨el.textOf⟩

/-- `xccdf::Description` (HTML-flattened text). -/
structure Description where
  text : String
deriving DecidableEq

/-- `Description::from_xml`. -/
def Description.from_xml (el : XElement) : Res Description :=
  .ok ⟨html_to_string el⟩

/-- `xccdf::Notice`. -/
structure Notice where
  id : String
  text : String
deriving DecidableEq

/-- `Notice::from_xml`. -/
def Notice.from_xml (el : XElement) : Res Notice :=
  (require_attr el "id").map (fun id => ⟨id, el.textOf⟩)

/-- `xccdf::FrontMatter`. -/
structure FrontMatter where
  text : String
deriving DecidableEq

/-- `FrontMatter::from_xml`. -/
def FrontMatter.from_xml (el : XElement) : Res FrontMatter :=
  .ok ⟨el.textOf⟩

/-- `xccdf::RearMatter`. -/
structure RearMatter where
  text : String
deriving DecidableEq

/-- `RearMatter::from_xml`. -/
def RearMatter.from_xml (el : XElement) : Res RearMatter :=
  .ok ⟨el.textOf⟩

/-- `xccdf::Reference`. -/
structure Reference where
  text : String
deriving DecidableEq

/-- `Reference::from_xml`. -/
def Reference.from_xml (el : XElement) : Res Reference :=
  .ok ⟨el.textOf⟩

/-- `xccdf::PlainText`. -/
structure PlainText where
  text : String
deriving DecidableEq

/-- `PlainText::from_xml`. -/
def PlainText.from_xml (el : XElement) : Res PlainText :=
  .ok ⟨el.textOf⟩

/-- `xccdf::PlatformSpecification`. -/
structure PlatformSpecification where
  text : String
deriving DecidableEq

/-- `PlatformSpecification::from_xml`. -/
def PlatformSpecification.from_xml (el : XElement) : Res PlatformSpecification :=
  .ok ⟨el.textOf⟩

/-- `xccdf::Platform`. -/
structure Platform where
  idref : String
deriving DecidableEq

/-- `Platform::from_xml`. -/
def Platform.from_xml (el : XElement) : Res Platform :=
  (require_attr el "idref").map (fun idref => ⟨idref⟩)

/-- `xccdf::Version`. -/
structure Version where
  text : String
deriving DecidableEq

/-- `Version::from_xml`. -/
def Version.from_xml (el : XElement) : Res Version :=
  .ok ⟨el.textOf⟩

/-- `xccdf::Metadata`. -/
structure Metadata where
  contributors : List String
  publishers : List String
  creators : List String
  sources : List String
deriving DecidableEq

/-- The child loop of `Metadata::from_xml` (unrecognized children are
ignored). -/
def metaLoop : List XElement → Metadata → Metadata
  | [], acc => acc
  | c :: rest, acc =>
    match c.name with
    | "contributor" => metaLoop rest { acc with contributors := acc.contributors ++ [c.textOf] }
    | "publisher" => metaLoop rest { acc with publishers := acc.publishers ++ [c.textOf] }
    | "creator" => metaLoop rest { acc with creators := acc.creators ++ [c.textOf] }
    | "source" => metaLoop rest { acc with sources := acc.sources ++ [c.textOf] }
    | _ => metaLoop rest acc

/-- `Metadata::from_xml`. -/
def Metadata.from_xml (el : XElement) : Res Metadata :=
  .ok (metaLoop el.children ⟨[], [], [], []⟩)

/-- `xccdf::Model`. -/
structure Model where
  text : String
deriving DecidableEq

/-- `Model::from_xml`. -/
def Model.from_xml (el : XElement) : Res Model :=
  .ok ⟨el.textOf⟩

/-- `xccdf::Value`. -/
structure Value where
  id : String
deriving DecidableEq

/-- `Value::from_xml`. -/
def Value.from_xml (el : XElement) : Res Value :=
  (require_attr el "id").map (fun id => ⟨id⟩)

/-- `xccdf::TestResult`. -/
structure TestResult where
  id : String
deriving DecidableEq

/-- `TestResult::from_xml`. -/
def TestResult.from_xml (el : XElement) : Res TestResult :=
  (require_attr el "id").map (fun id => ⟨id⟩)

/-- `xccdf::Select`. -/
structure Select where
  idref : String
  selected : Bool
deriving DecidableEq

/-- `Select::from_xml`.  The source runs
`require_attr(el, "selected")?.parse().unwrap()`: a present but
unparseable `selected` value hits the `unwrap()` and aborts the process
instead of producing an `Err`. -/
def Select.from_xml (el : XElement) : Res Select :=
  match require_attr el "idref" with
  | .err e => .err e
  | .panicked => .panicked
  | .ok idref =>
    match require_attr el "selected" with
    | .err e => .err e
    | .panicked => .panicked
    | .ok s =>
      match parseBool s with
      | some b => .ok ⟨idref, b⟩
      | none => .panicked

/-- `xccdf::SetComplexValue`. -/
structure SetComplexValue where
  text : String
deriving DecidableEq

/-- `SetComplexValue::from_xml`. -/
def SetComplexValue.from_xml (el : XElement) : Res SetComplexValue :=
  .ok ⟨el.textOf⟩

/-- `xccdf::SetValue`. -/
structure SetValue where
  text : String
deriving DecidableEq

/-- `SetValue::from_xml`. -/
def SetValue.from_xml (el : XElement) : Res SetValue :=
  .ok ⟨el.textOf⟩

/-- `xccdf::RefineValue`. -/
structure RefineValue where
  text : String
deriving DecidableEq

/-- `RefineValue::from_xml`. -/
def RefineValue.from_xml (el : XElement) : Res RefineValue :=
  .ok ⟨el.textOf⟩

/-- `xccdf::RefineRule`. -/
structure RefineRule where
  text : String
deriving DecidableEq

/-- `RefineRule::from_xml`. -/
def RefineRule.from_xml (el : XElement) : Res RefineRule :=
  .ok ⟨el.textOf⟩

/-- `xccdf::Warning`. -/
structure Warning where
  text : String
deriving DecidableEq

/-- `Warning::from_xml`. -/
def Warning.from_xml (el : XElement) : Res Warning :=
  .ok ⟨el.textOf⟩

/-- `xccdf::Question`. -/
structure Question where
  text : String
deriving DecidableEq

/-- `Question::from_xml`. -/
def Question.from_xml (el : XElement) : Res Question :=
  .ok ⟨el.textOf⟩

/-- `xccdf::Rationale`. -/
structure Rationale where
  text : String
deriving DecidableEq

/-- `Rationale::from_xml`. -/
def Rationale.from_xml (el : XElement) : Res Rationale :=
  .ok ⟨el.textOf⟩

/-- `xccdf::Requires`. -/
structure Requires where
  text : String
deriving DecidableEq

/-- `Requires::from_xml`. -/
def Requires.from_xml (el : XElement) : Res Requires :=
  .ok ⟨el.textOf⟩

/-- `xccdf::Conflicts`. -/
structure Conflicts where
  idref : String
deriving DecidableEq

/-- `Conflicts::from_xml`. -/
def Conflicts.from_xml (el : XElement) : Res Conflicts :=
  (require_attr el "idref").map (fun idref => ⟨idref⟩)

/-- `xccdf::Ident`. -/
structure Ident where
  text : String
  system : String
deriving DecidableEq

/-- `Ident::from_xml`. -/
def Ident.from_xml (el : XElement) : Res Ident :=
  (require_attr el "system").map (fun system => ⟨el.textOf, system⟩)

/-- `xccdf::ProfileNote`. -/
structure ProfileNote where
  text : String
deriving DecidableEq

/-- `ProfileNote::from_xml`. -/
def ProfileNote.from_xml (el : XElement) : Res ProfileNote :=
  .ok ⟨el.textOf⟩

/-- `xccdf::FixText`. -/
structure FixText where
  text : String
deriving DecidableEq

/-- `FixText::from_xml`. -/
def FixText.from_xml (el : XElement) : Res FixText :=
  .ok ⟨el.textOf⟩

/-- `xccdf::Fix`. -/
structure Fix where
  text : String
deriving DecidableEq

/-- `Fix::from_xml`. -/
def Fix.from_xml (el : XElement) : Res Fix :=
  .ok ⟨el.textOf⟩

/-- `xccdf::Check`. -/
structure Check where
  text : String
deriving DecidableEq

/-- `Check::from_xml`. -/
def Check.from_xml (el : XElement) : Res Check :=
  .ok ⟨el.textOf⟩

/-- `xccdf::ComplexCheck`. -/
structure ComplexCheck where
  text : String
deriving DecidableEq

/-- `ComplexCheck::from_xml`. -/
def ComplexCheck.from_xml (el : XElement) : Res ComplexCheck :=
  .ok ⟨el.textOf⟩

/-! ## xccdf.rs: Rule -/

/-- Chain a fallible step, mirroring Rust's `?` operator. -/
def Res.andThen (r : Res α) (f : α → Res β) : Res β :=
  match r with
  | .ok a => f a
  | .err e => .err e
  | .panicked => .panicked

/-- `xccdf::Rule` (the Rust field `extends` is spelled `extends_` because
`extends` is reserved in Lean). -/
structure Rule where
  id : String
  abstract_ : Bool
  cluster_id : Option String
  extends_ : Option String
  hidden : Bool
  prohibit_changes : Bool
  selected : Bool
  weight : Float
  role : String
  severity : String
  multiple : Bool
  statuses : List Status
  version : Option Version
  titles : List Title
  descriptions : List Description
  warnings : List Warning
  questions : List Question
  references : List Reference
  metadata : List Metadata
  rationales : List Rationale
  platforms : List Platform
  requires : List Requires
  conflicts : List Conflicts
  idents : List Ident
  profile_notes : List ProfileNote
  fixtexts : List FixText
  fixes : List Fix
  checks : List Check
  complex_checks : List ComplexCheck

/-- The mutable vectors of the child loop of `Rule::from_xml`. -/
structure RuleAcc where
  statuses : List Status
  version : Option Version
  titles : List Title
  descriptions : List Description
  warnings : List Warning
  questions : List Question
  references : List Reference
  metadata : List Metadata
  rationales : List Rationale
  platforms : List Platform
  requires : List Requires
  conflicts : List Conflicts
  idents : List Ident
  profile_notes : List ProfileNote
  fixtexts : List FixText
  fixes : List Fix
  checks : List Check
  complex_checks : List ComplexCheck

/-- The empty `RuleAcc` (all vectors start empty). -/
def RuleAcc.init : RuleAcc :=
  ⟨[], none, [], [], [], [], [], [], [], [], [], [], [], [], [], [], [], []⟩

/-- One iteration of the child loop of `Rule::from_xml`, dispatching on the
child's local name; `id` is the owning rule's id, used in the
unexpected-element message. -/
def ruleStep (id : String) (c : XElement) (acc : RuleAcc) : Res RuleAcc :=
  match c.name with
  | "status" => (Status.from_xml c).map (fun x => { acc with statuses := acc.statuses ++ [x] })
  | "version" =>
    match acc.version with
    | some _ => .err "Duplicate version elements"
    | none => (Version.from_xml c).map (fun v => { acc with version := some v })
  | "title" => (Title.from_xml c).map (fun x => { acc with titles := acc.titles ++ [x] })
  | "description" => (Description.from_xml c).map (fun x => { acc with descriptions := acc.descriptions ++ [x] })
  | "warning" => (Warning.from_xml c).map (fun x => { acc with warnings := acc.warnings ++ [x] })
  | "question" => (Question.from_xml c).map (fun x => { acc with questions := acc.questions ++ [x] })
  | "reference" => (Reference.from_xml c).map (fun x => { acc with references := acc.references ++ [x] })
  | "metadata" => (Metadata.from_xml c).map (fun x => { acc with metadata := acc.metadata ++ [x] })
  | "rationale" => (Rationale.from_xml c).map (fun x => { acc with rationales := acc.rationales ++ [x] })
  | "platform" => (Platform.from_xml c).map (fun x => { acc with platforms := acc.platforms ++ [x] })
  | "requires" => (Requires.from_xml c).map (fun x => { acc with requires := acc.requires ++ [x] })
  | "conflicts" => (Conflicts.from_xml c).map (fun x => { acc with conflicts := acc.conflicts ++ [x] })
  | "ident" => (Ident.from_xml c).map (fun x => { acc with idents := acc.idents ++ [x] })
  | "profile-note" => (ProfileNote.from_xml c).map (fun x => { acc with profile_notes := acc.profile_notes ++ [x] })
  | "fixtext" => (FixText.from_xml c).map (fun x => { acc with fixtexts := acc.fixtexts ++ [x] })
  | "fix" => (Fix.from_xml c).map (fun x => { acc with fixes := acc.fixes ++ [x] })
  | "check" => (Check.from_xml c).map (fun x => { acc with checks := acc.checks ++ [x] })
  | "complex-check" => (ComplexCheck.from_xml c).map (fun x => { acc with complex_checks := acc.complex_checks ++ [x] })
  | other => .err ("Rule '" ++ id ++ "': unexpected element '" ++ other ++ "'")

/-- The child loop of `Rule::from_xml`: the first error (or abort) stops
the iteration. -/
def ruleLoop (id : String) : List XElement → RuleAcc → Res RuleAcc
  | [], acc => .ok acc
  | c :: rest, acc =>
    match ruleStep id c acc with
    | .ok acc2 => ruleLoop id rest acc2
    | .err e => .err e
    | .panicked => .panicked

/-- `Rule::from_xml`.  Note: the source passes the literal `"rule"` as the
attribute name when reading the role enumeration. -/
def Rule.from_xml (el : XElement) : Res Rule :=
  (require_attr el "id").andThen (fun id =>
  (get_attr_default_bool el "abstract" false).andThen (fun abstract_ =>
  let extends_ := get_attr el "extends"
  (get_attr_default_bool el "hidden" false).andThen (fun hidden =>
  (get_attr_default_bool el "prohibitChanges" false).andThen (fun prohibit_changes =>
  (get_attr_default_bool el "selected" true).andThen (fun selected =>
  (get_attr_default parseF64 el "weight" 1.0).andThen (fun weight =>
  let cluster_id := get_attr el "cluster-id"
  (get_attr_default_options el "rule" "full" ["full", "unscored", "unchecked"]).andThen (fun role =>
  (get_attr_default_options el "severity" "unknown"
      ["unknown", "info", "low", "medium", "high"]).andThen (fun severity =>
  (get_attr_default_bool el "multiple" false).andThen (fun multiple =>
  (ruleLoop id el.children RuleAcc.init).andThen (fun acc =>
  .ok { id := id, abstract_ := abstract_, cluster_id := cluster_id,
        extends_ := extends_, hidden := hidden,
        prohibit_changes := prohibit_changes, selected := selected,
        weight := weight, role := role, severity := severity,
        multiple := multiple, statuses := acc.statuses,
        version := acc.version, titles := acc.titles,
        descriptions := acc.descriptions, warnings := acc.warnings,
        questions := acc.questions, references := acc.references,
        metadata := acc.metadata, rationales := acc.rationales,
        platforms := acc.platforms, requires := acc.requires,
        conflicts := acc.conflicts, idents := acc.idents,
        profile_notes := acc.profile_notes, fixtexts := acc.fixtexts,
        fixes := acc.fixes, checks := acc.checks,
        complex_checks := acc.complex_checks }))))))))))

/-! ## xccdf.rs: Group (mutually recursive with its own child loop) -/

/-- The element children of a node list are no larger than the list
itself (used for termination of the recursive `Group` mapper). -/
theorem sizeOf_elemsOf_le (l : List XNode) : sizeOf (elemsOf l) ≤ sizeOf l := by
  induction l with
  | nil => simp [elemsOf]
  | cons n rest ih =>
    cases n with
    | text s => simp only [elemsOf, List.cons.sizeOf_spec]; omega
    | elem e => simp only [elemsOf, List.cons.sizeOf_spec, XNode.elem.sizeOf_spec]; omega

/-- The child list of an element is strictly smaller than the element. -/
theorem sizeOf_children_lt (el : XElement) : sizeOf el.children < sizeOf el := by
  cases el with
  | mk n ns a nodes =>
    have h := sizeOf_elemsOf_le nodes
    simp only [XElement.children, XElement.nodes, XElement.mk.sizeOf_spec]
    omega

/-- `xccdf::Group`: the recursive checklist tree node (a Lean `inductive`
because a `Group` owns nested `Group` children); field order follows the
Rust struct, with `extends` spelled `extends_`. -/
inductive Group : Type where
  | mk
    (id : String)
    (abstract_ : Bool)
    (cluster_id : Option String)
    (extends_ : Option String)
    (hidden : Bool)
    (prohibit_changes : Bool)
    (selected : Bool)
    (weight : Float)
    (statuses : List Status)
    (version : Option Version)
    (titles : List Title)
    (descriptions : List Description)
    (warnings : List Warning)
    (questions : List Question)
    (references : List Reference)
    (metadata : List Metadata)
    (rationales : List Rationale)
    (platforms : List Platform)
    (requires : List Requires)
    (conflicts : List Conflicts)
    (values : List Value)
    (groups : List Group)
    (rules : List Rule)

/-- The mutable vectors of the child loop of `Group::from_xml`. -/
structure GroupAcc where
  statuses : List Status
  version : Option Version
  titles : List Title
  descriptions : List Description
  warnings : List Warning
  questions : List Question
  references : List Reference
  metadata : List Metadata
  rationales : List Rationale
  platforms : List Platform
  requires : List Requires
  conflicts : List Conflicts
  values : List Value
  groups : List Group
  rules : List Rule

/-- The empty `GroupAcc`. -/
def GroupAcc.init : GroupAcc :=
  ⟨[], none, [], [], [], [], [], [], [], [], [], [], [], [], []⟩

mutual
/-- One iteration of the child loop of `Group::from_xml`; the
unexpected-element message of the source uses the (mistaken) text
`Rule '...'` with the owning group's id. -/
def groupStep (id : String) (c : XElement) (acc : GroupAcc) : Res GroupAcc :=
  match c.name with
  | "status" => (Status.from_xml c).map (fun x => { acc with statuses := acc.statuses ++ [x] })
  | "version" =>
    match acc.version with
    | some _ => .err "Duplicate version elements"
    | none => (Version.from_xml c).map (fun v => { acc with version := some v })
  | "title" => (Title.from_xml c).map (fun x => { acc with titles := acc.titles ++ [x] })
  | "description" => (Description.from_xml c).map (fun x => { acc with descriptions := acc.descriptions ++ [x] })
  | "warning" => (Warning.from_xml c).map (fun x => { acc with warnings := acc.warnings ++ [x] })
  | "question" => (Question.from_xml c).map (fun x => { acc with questions := acc.questions ++ [x] })
  | "reference" => (Reference.from_xml c).map (fun x => { acc with references := acc.references ++ [x] })
  | "metadata" => (Metadata.from_xml c).map (fun x => { acc with metadata := acc.metadata ++ [x] })
  | "rationale" => (Rationale.from_xml c).map (fun x => { acc with rationales := acc.rationales ++ [x] })
  | "platform" => (Platform.from_xml c).map (fun x => { acc with platforms := acc.platforms ++ [x] })
  | "requires" => (Requires.from_xml c).map (fun x => { acc with requires := acc.requires ++ [x] })
  | "conflicts" => (Conflicts.from_xml c).map (fun x => { acc with conflicts := acc.conflicts ++ [x] })
  | "Value" => (Value.from_xml c).map (fun x => { acc with values := acc.values ++ [x] })
  | "Group" => (Group.from_xml c).map (fun x => { acc with groups := acc.groups ++ [x] })
  | "Rule" => (Rule.from_xml c).map (fun x => { acc with rules := acc.rules ++ [x] })
  | other => .err ("Rule '" ++ id ++ "': unexpected element '" ++ other ++ "'")
termination_by (sizeOf c, 1)

/-- The child loop of `Group::from_xml`. -/
def groupLoop (id : String) : List XElement → GroupAcc → Res GroupAcc
  | [], acc => .ok acc
  | c :: rest, acc =>
    match groupStep id c acc with
    | .ok acc2 => groupLoop id rest acc2
    | .err e => .err e
    | .panicked => .panicked
termination_by cs _ => (sizeOf cs, 1)

/-- `Group::from_xml`. -/
def Group.from_xml (el : XElement) : Res Group :=
  (require_attr el "id").andThen (fun id =>
  (get_attr_default_bool el "abstract" false).andThen (fun abstract_ =>
  let extends_ := get_attr el "extends"
  (get_attr_default_bool el "hidden" false).andThen (fun hidden =>
  (get_attr_default_bool el "prohibitChanges" false).andThen (fun prohibit_changes =>
  (get_attr_default_bool el "selected" true).andThen (fun selected =>
  (get_attr_default parseF64 el "weight" 1.0).andThen (fun weight =>
  let cluster_id := get_attr el "cluster-id"
  (groupLoop id el.children GroupAcc.init).andThen (fun acc =>
  .ok (Group.mk id abstract_ cluster_id extends_ hidden prohibit_changes
    selected weight acc.statuses acc.version acc.titles acc.descriptions
    acc.warnings acc.questions acc.references acc.metadata acc.rationales
    acc.platforms acc.requires acc.conflicts acc.values acc.groups
    acc.rules))))))))
termination_by (sizeOf el, 0)
decreasing_by
  exact Prod.Lex.left _ _ (sizeOf_children_lt el)
end

/-! ## xccdf.rs: Profile and Benchmark -/

/-- `xccdf::Profile` (`extends` spelled `extends_`). -/
structure Profile where
  id : String
  prohibit_changes : Bool
  abstract_ : Bool
  note_tag : Option String
  extends_ : Option String
  statuses : List Status
  version : Option Version
  titles : List Title
  descriptions : List Description
  references : List Reference
  platforms : List Platform
  selects : List Select
  set_complex_values : List SetComplexValue
  set_values : List SetValue
  refine_values : List RefineValue
  refine_rules : List RefineRule

/-- The mutable vectors of the child loop of `Profile::from_xml`. -/
structure ProfAcc where
  statuses : List Status
  version : Option Version
  titles : List Title
  descriptions : List Description
  references : List Reference
  platforms : List Platform
  selects : List Select
  set_complex_values : List SetComplexValue
  set_values : List SetValue
  refine_values : List RefineValue
  refine_rules : List RefineRule

/-- The empty `ProfAcc`. -/
def ProfAcc.init : ProfAcc :=
  ⟨[], none, [], [], [], [], [], [], [], [], []⟩

/-- One iteration of the child loop of `Profile::from_xml`. -/
def profStep (id : String) (c : XElement) (acc : ProfAcc) : Res ProfAcc :=
  match c.name with
  | "status" => (Status.from_xml c).map (fun x => { acc with statuses := acc.statuses ++ [x] })
  | "version" =>
    match acc.version with
    | some _ => .err "Duplicate version elements"
    | none => (Version.from_xml c).map (fun v => { acc with version := some v })
  | "title" => (Title.from_xml c).map (fun x => { acc with titles := acc.titles ++ [x] })
  | "description" => (Description.from_xml c).map (fun x => { acc with descriptions := acc.descriptions ++ [x] })
  | "reference" => (Reference.from_xml c).map (fun x => { acc with references := acc.references ++ [x] })
  | "platform" => (Platform.from_xml c).map (fun x => { acc with platforms := acc.platforms ++ [x] })
  | "select" => (Select.from_xml c).map (fun x => { acc with selects := acc.selects ++ [x] })
  | "set-complex-value" => (SetComplexValue.from_xml c).map (fun x => { acc with set_complex_values := acc.set_complex_values ++ [x] })
  | "set-value" => (SetValue.from_xml c).map (fun x => { acc with set_values := acc.set_values ++ [x] })
  | "refine-value" => (RefineValue.from_xml c).map (fun x => { acc with refine_values := acc.refine_values ++ [x] })
  | "refine-rule" => (RefineRule.from_xml c).map (fun x => { acc with refine_rules := acc.refine_rules ++ [x] })
  | other => .err ("Profile '" ++ id ++ "': unexpected element '" ++ other ++ "'")

/-- The child loop of `Profile::from_xml`. -/
def profLoop (id : String) : List XElement → ProfAcc → Res ProfAcc
  | [], acc => .ok acc
  | c :: rest, acc =>
    match profStep id c acc with
    | .ok acc2 => profLoop id rest acc2
    | .err e => .err e
    | .panicked => .panicked

/-- `Profile::from_xml`.  (The `abstract` attribute is read through plain
`get_attr_default` in the source, not `get_attr_default_bool`.) -/
def Profile.from_xml (el : XElement) : Res Profile :=
  (require_attr el "id").andThen (fun id =>
  (get_attr_default_bool el "prohibitChanges" false).andThen (fun prohibit_changes =>
  (get_attr_default parseBool el "abstract" false).andThen (fun abstract_ =>
  let note_tag := get_attr el "note-tag"
  let extends_ := get_attr el "extends"
  (profLoop id el.children ProfAcc.init).andThen (fun acc =>
  if acc.titles.length = 0 then
    .err ("Profile '" ++ id ++ "' doesn't have any title")
  else
    .ok { id := id, prohibit_changes := prohibit_changes,
          abstract_ := abstract_, note_tag := note_tag, extends_ := extends_,
          statuses := acc.statuses, version := acc.version,
          titles := acc.titles, descriptions := acc.descriptions,
          references := acc.references, platforms := acc.platforms,
          selects := acc.selects,
          set_complex_values := acc.set_complex_values,
          set_values := acc.set_values,
          refine_values := acc.refine_values,
          refine_rules := acc.refine_rules }))))

/-- `xccdf::Benchmark`. -/
structure Benchmark where
  id : String
  resolved : Bool
  style : Option String
  style_href : Option String
  statuses : List Status
  titles : List Title
  descriptions : List Description
  notices : List Notice
  front_matters : List FrontMatter
  rear_matters : List RearMatter
  references : List Reference
  plain_texts : List PlainText
  platform_specification : Option PlatformSpecification
  platforms : List Platform
  version : Version
  metadata : List Metadata
  models : List Model
  profiles : List Profile
  values : List Value
  groups : List Group
  rules : List Rule
  test_results : List TestResult

/-- The mutable vectors of the child loop of `Benchmark::from_xml`. -/
structure BenchAcc where
  statuses : List Status
  titles : List Title
  descriptions : List Description
  notices : List Notice
  front_matters : List FrontMatter
  rear_matters : List RearMatter
  references : List Reference
  plain_texts : List PlainText
  platform_specification : Option PlatformSpecification
  platforms : List Platform
  version : Option Version
  metadata : List Metadata
  models : List Model
  profiles : List Profile
  values : List Value
  groups : List Group
  rules : List Rule
  test_results : List TestResult

/-- The empty `BenchAcc`. -/
def BenchAcc.init : BenchAcc :=
  ⟨[], [], [], [], [], [], [], [], none, [], none, [], [], [], [], [], [], []⟩

/-- One iteration of the child loop of `Benchmark::from_xml`, dispatching
on the child's local name. -/
def benchStep (c : XElement) (acc : BenchAcc) : Res BenchAcc :=
  match c.name with
  | "status" => (Status.from_xml c).map (fun x => { acc with statuses := acc.statuses ++ [x] })
  | "title" => (Title.from_xml c).map (fun x => { acc with titles := acc.titles ++ [x] })
  | "description" => (Description.from_xml c).map (fun x => { acc with descriptions := acc.descriptions ++ [x] })
  | "notice" => (Notice.from_xml c).map (fun x => { acc with notices := acc.notices ++ [x] })
  | "front-matter" => (FrontMatter.from_xml c).map (fun x => { acc with front_matters := acc.front_matters ++ [x] })
  | "rear-matter" => (RearMatter.from_xml c).map (fun x => { acc with rear_matters := acc.rear_matters ++ [x] })
  | "reference" => (Reference.from_xml c).map (fun x => { acc with references := acc.references ++ [x] })
  | "plain-text" => (PlainText.from_xml c).map (fun x => { acc with plain_texts := acc.plain_texts ++ [x] })
  | "platform-specification" =>
    match acc.platform_specification with
    | some _ => .err "Duplicate platform elements"
    | none => (PlatformSpecification.from_xml c).map (fun x => { acc with platform_specification := some x })
  | "platform" => (Platform.from_xml c).map (fun x => { acc with platforms := acc.platforms ++ [x] })
  | "version" =>
    match acc.version with
    | some _ => .err "Duplicate version elements"
    | none => (Version.from_xml c).map (fun v => { acc with version := some v })
  | "metadata" => (Metadata.from_xml c).map (fun x => { acc with metadata := acc.metadata ++ [x] })
  | "model" => (Model.from_xml c).map (fun x => { acc with models := acc.models ++ [x] })
  | "Profile" => (Profile.from_xml c).map (fun x => { acc with profiles := acc.profiles ++ [x] })
  | "Value" => (Value.from_xml c).map (fun x => { acc with values := acc.values ++ [x] })
  | "Group" => (Group.from_xml c).map (fun x => { acc with groups := acc.groups ++ [x] })
  | "Rule" => (Rule.from_xml c).map (fun x => { acc with rules := acc.rules ++ [x] })
  | "TestResult" => (TestResult.from_xml c).map (fun x => { acc with test_results := acc.test_results ++ [x] })
  | other => .err ("unexpected element " ++ other)

/-- The child loop of `Benchmark::from_xml`. -/
def benchLoop : List XElement → BenchAcc → Res BenchAcc
  | [], acc => .ok acc
  | c :: rest, acc =>
    match benchStep c acc with
    | .ok acc2 => benchLoop rest acc2
    | .err e => .err e
    | .panicked => .panicked

/-- `Benchmark::from_xml`. -/
def Benchmark.from_xml (el : XElement) : Res Benchmark :=
  if ¬ el.isElem "Benchmark" XCCDF12_NS then
    .err ("Unexpected element '" ++ el.name ++ "', expected xccdf:Benchmark")
  else
    (require_attr el "id").andThen (fun id =>
    (get_attr_default_bool el "resolved" false).andThen (fun resolved =>
    let style := get_attr el "style"
    let style_href := get_attr el "style-href"
    (benchLoop el.children BenchAcc.init).andThen (fun acc =>
    if acc.statuses.length = 0 then
      .err ("xccdf:Benchmark " ++ id ++ ": missing status element")
    else
      match acc.version with
      | none => .err ("xccdf:Benchmark " ++ id ++ ": missing version element")
      | some version =>
        .ok { id := id, resolved := resolved, style := style,
              style_href := style_href, statuses := acc.statuses,
              titles := acc.titles, descriptions := acc.descriptions,
              notices := acc.notices, front_matters := acc.front_matters,
              rear_matters := acc.rear_matters,
              references := acc.references, plain_texts := acc.plain_texts,
              platform_specification := acc.platform_specification,
              platforms := acc.platforms, version := version,
              metadata := acc.metadata, models := acc.models,
              profiles := acc.profiles, values := acc.values,
              groups := acc.groups, rules := acc.rules,
              test_results := acc.test_results })))

/-! ## sds.rs: the SCAP source data stream container layer -/

/-- The SCAP 1.2 source namespace constant of `sds.rs`. -/
def SCAP12_NS : String := "http://scap.nist.gov/schema/scap/source/1.2"

/-- The digital-signature namespace constant of `sds.rs`. -/
def DSIG_NS : String := "http://scap.nist.gov/schema/xml-dsig/1.0"

/-- The XML catalog namespace constant of `sds.rs`. -/
def CAT_NS : String := "urn:oasis:names:tc:entity:xmlns:xml:catalog"

/-- `sds::Signature`. -/
structure Signature where
  id : String
deriving DecidableEq

/-- `Signature::from_xml`. -/
def Signature.from_xml (el : XElement) : Res Signature :=
  (require_attr el "id").map (fun id => ⟨id⟩)

/-- `sds::ExtendedComponent`. -/
structure ExtendedComponent where
  id : String
  timestamp : String
deriving DecidableEq

/-- `ExtendedComponent::from_xml`. -/
def ExtendedComponent.from_xml (el : XElement) : Res ExtendedComponent :=
  (require_attr el "id").andThen (fun id =>
  (require_attr el "timestamp").map (fun timestamp => ⟨id, timestamp⟩))

/-- `sds::CatURI`. -/
structure CatURI where
  name : String
  uri : String
deriving DecidableEq

/-- `CatURI::from_xml`. -/
def CatURI.from_xml (el : XElement) : Res CatURI :=
  (require_attr el "name").andThen (fun name =>
  (require_attr el "uri").map (fun uri => ⟨name, uri⟩))

/-- `sds::RewriteURI` (the Rust fields are `uri_start_string` and
`rewrite_prefix`; the second is spelled `rewrite_pfx` here). -/
structure RewriteURI where
  uri_start_string : String
  rewrite_pfx : String
deriving DecidableEq

/-- `RewriteURI::from_xml`. -/
def RewriteURI.from_xml (el : XElement) : Res RewriteURI :=
  (require_attr el "uriStartString").andThen (fun uri_start_string =>
  (require_attr el "rewritePrefix").map (fun p => ⟨uri_start_string, p⟩))

/-- `sds::Catalog`. -/
structure Catalog where
  uris : List CatURI
  rewrite_uris : List RewriteURI
deriving DecidableEq

/-- The child loop of `Catalog::from_xml`; `selfName` is the catalog
element's own name, which the source (not the child's name) interpolates
into the unexpected-element message. -/
def catLoop (selfName : String) : List XElement → List CatURI → List RewriteURI →
    Res (List CatURI × List RewriteURI)
  | [], uris, rewrite_uris => .ok (uris, rewrite_uris)
  | c :: rest, uris, rewrite_uris =>
    if c.isElem "uri" CAT_NS then
      match CatURI.from_xml c with
      | .ok u => catLoop selfName rest (uris ++ [u]) rewrite_uris
      | .err e => .err e
      | .panicked => .panicked
    else if c.isElem "rewriteURI" CAT_NS then
      match RewriteURI.from_xml c with
      | .ok r => catLoop selfName rest uris (rewrite_uris ++ [r])
      | .err e => .err e
      | .panicked => .panicked
    else
      .err ("Unexpected element '" ++ selfName ++
        "', expected either 'uri' or 'rewriteURI'")

/-- `Catalog::from_xml`. -/
def Catalog.from_xml (el : XElement) : Res Catalog :=
  if ¬ el.isElem "catalog" CAT_NS then
    .err ("Unexpected element '" ++ el.name ++ "'")
  else
    (catLoop el.name el.children [] []).map (fun p => ⟨p.1, p.2⟩)

/-- `sds::ComponentRef` (`type_` for the Rust raw identifier field). -/
structure ComponentRef where
  id : String
  type_ : Option String
  href : String
  catalog : Option Catalog
deriving DecidableEq

/-- `ComponentRef::from_xml`. -/
def ComponentRef.from_xml (el : XElement) : Res ComponentRef :=
  if ¬ el.isElem "component-ref" SCAP12_NS then
    .err ("Unexpected element '" ++ el.name ++ "'")
  else
    (require_attr el "id").andThen (fun id =>
    let type_ := get_attr el "xlink:type"
    (require_attr el "xlink:href").andThen (fun href =>
    match el.getChild "catalog" CAT_NS with
    | some catalog_el =>
      (Catalog.from_xml catalog_el).map (fun cat => ⟨id, type_, href, some cat⟩)
    | none => .ok ⟨id, type_, href, none⟩))

/-- `sds::DataStream`. -/
structure DataStream where
  id : String
  use_case : String
  scap_version : String
  timestamp : Option String
  dictionaries : List ComponentRef
  checklists : List ComponentRef
  checks : List ComponentRef
  extended_components : List ComponentRef
deriving DecidableEq

/-- The inner loop of `DataStream::get_component_ref_vec`. -/
def crLoop : List XElement → List ComponentRef → Res (List ComponentRef)
  | [], acc => .ok acc
  | c :: rest, acc =>
    match ComponentRef.from_xml c with
    | .ok cr => crLoop rest (acc ++ [cr])
    | .err e => .err e
    | .panicked => .panicked

/-- `DataStream::get_component_ref_vec`: absence of the named container
child yields an empty list. -/
def get_component_ref_vec (data_stream_el : XElement) (component_name : String) :
    Res (List ComponentRef) :=
  match data_stream_el.getChild component_name SCAP12_NS with
  | some component_el => crLoop component_el.children []
  | none => .ok []

/-- The fixed `use-case` domain of `DataStream::from_xml`. -/
def useCaseOpts : List String :=
  ["CONFIGURATION", "VULNERABILITY", "INVENTORY", "OTHER"]

/-- The fixed `scap-version` domain of `DataStream::from_xml`. -/
def scapVersionOpts : List String := ["1.0", "1.1", "1.2", "1.3"]

/-- `DataStream::from_xml`. -/
def DataStream.from_xml (el : XElement) : Res DataStream :=
  (require_attr el "id").andThen (fun id =>
  (require_attr_options el "use-case" useCaseOpts).andThen (fun use_case =>
  (require_attr_options el "scap-version" scapVersionOpts).andThen (fun scap_version =>
  let timestamp := get_attr el "timestamp"
  (get_component_ref_vec el "dictionaries").andThen (fun dictionaries =>
  (get_component_ref_vec el "checklists").andThen (fun checklists =>
  (get_component_ref_vec el "checks").andThen (fun checks =>
  (get_component_ref_vec el "extended-components").andThen (fun extended_components =>
  .ok ⟨id, use_case, scap_version, timestamp, dictionaries, checklists,
       checks, extended_components⟩)))))))

/-- `sds::ComponentContent`. -/
inductive ComponentContent : Type where
  | XCCDFBenchmark (benchmark : Benchmark)
  | NotImplemented

/-- `sds::Component`. -/
structure Component where
  id : String
  timestamp : String
  component_name : String
  component_ns : String
  content : ComponentContent

/-- `Component::from_xml`: takes the FIRST element child
(`el.children().next()`); zero element children is an error naming the
component id. -/
def Component.from_xml (el : XElement) : Res Component :=
  (require_attr el "id").andThen (fun id =>
  (require_attr el "timestamp").andThen (fun timestamp =>
  match el.children with
  | component :: _ =>
    let component_name := component.name
    let component_ns := component.ns
    if component_ns = XCCDF12_NS ∧ component_name = "Benchmark" then
      (Benchmark.from_xml component).map (fun b =>
        ⟨id, timestamp, component_name, component_ns, .XCCDFBenchmark b⟩)
    else
      .ok ⟨id, timestamp, component_name, component_ns, .NotImplemented⟩
  | [] => .err ("component '" ++ id ++ "' doesn't have any child element")))

/-- `sds::DataStreamCollection`. -/
structure DataStreamCollection where
  id : String
  schematron_version : String
  data_streams : List DataStream
  components : List Component
  extended_components : List ExtendedComponent
  signatures : List Signature

/-- The mutable vectors of the child loop of
`DataStreamCollection::from_xml`. -/
structure CollAcc where
  data_streams : List DataStream
  components : List Component
  extended_components : List ExtendedComponent
  signatures : List Signature

/-- The empty `CollAcc`. -/
def CollAcc.init : CollAcc := ⟨[], [], [], []⟩

/-- One iteration of the child loop of `DataStreamCollection::from_xml`:
children in the four recognized (name, namespace) buckets are mapped,
every other child is skipped without an error. -/
def collStep (c : XElement) (acc : CollAcc) : Res CollAcc :=
  if c.isElem "data-stream" SCAP12_NS then
    (DataStream.from_xml c).map (fun x => { acc with data_streams := acc.data_streams ++ [x] })
  else if c.isElem "component" SCAP12_NS then
    (Component.from_xml c).map (fun x => { acc with components := acc.components ++ [x] })
  else if c.isElem "extended-component" SCAP12_NS then
    (ExtendedComponent.from_xml c).map (fun x => { acc with extended_components := acc.extended_components ++ [x] })
  else if c.isElem "Signature" DSIG_NS then
    (Signature.from_xml c).map (fun x => { acc with signatures := acc.signatures ++ [x] })
  else .ok acc

/-- The child loop of `DataStreamCollection::from_xml`. -/
def collLoop : List XElement → CollAcc → Res CollAcc
  | [], acc => .ok acc
  | c :: rest, acc =>
    match collStep c acc with
    | .ok acc2 => collLoop rest acc2
    | .err e => .err e
    | .panicked => .panicked

/-- `DataStreamCollection::from_xml`. -/
def DataStreamCollection.from_xml (root : XElement) : Res DataStreamCollection :=
  if root.ns ≠ SCAP12_NS then
    .err ("Wrong namespace '" ++ root.ns ++ "', expected '" ++ SCAP12_NS)
  else
    (require_attr root "id").andThen (fun id =>
    (require_attr root "schematron-version").andThen (fun schematron_version =>
    (collLoop root.children CollAcc.init).andThen (fun acc =>
    if acc.data_streams.length < 1 then
      .err "The 'data-stream-collection' element needs to have at least 1 child 'data-stream' element."
    else if acc.components.length < 1 then
      .err "The 'data-stream-collection' element needs to have at least 1 child 'component' element."
    else
      .ok ⟨id, schematron_version, acc.data_streams, acc.components,
           acc.extended_components, acc.signatures⟩)))

/-! ## Helper predicates and example documents -/

/-- Does `needle` occur as a contiguous sublist? (helper for reasoning
about error-message contents) -/
def subAt (needle : List Char) : List Char → Bool
  | [] => needle.isEmpty
  | c :: rest => needle.isPrefixOf (c :: rest) || subAt needle rest

/-- Does the string `hay` contain `needle` as a substring? -/
def strHas (hay needle : String) : Bool :=
  subAt needle.data hay.data

/-- A `Rule` element with a `role` attribute (the XCCDF spelling). -/
def exRuleRole : XElement :=
  .mk "Rule" XCCDF12_NS [("id", "rule1"), ("role", "unscored")] []

/-- A `Rule` element whose `role` value is outside the allowed set. -/
def exRuleBadRole : XElement :=
  .mk "Rule" XCCDF12_NS [("id", "rule2"), ("role", "banana")] []

/-- A `Rule` element carrying the attribute name `rule` that the source
actually reads. -/
def exRuleAttr : XElement :=
  .mk "Rule" XCCDF12_NS [("id", "rule3"), ("rule", "unscored")] []

/-- Projection of the role field of a mapped rule. -/
def ruleRoleOf (r : Res Rule) : Res String :=
  r.map (fun x => x.role)

/-- A `select` element whose `selected` value is not a boolean. -/
def exSelect : XElement :=
  .mk "select" XCCDF12_NS [("idref", "rule_1"), ("selected", "yes")] []

/-- An element with an attribute that does not parse as a boolean. -/
def exFlag : XElement :=
  .mk "person" "ns" [("flag", "maybe")] []

/-- A `component` element with two element children. -/
def exComp2 : XElement :=
  .mk "component" SCAP12_NS [("id", "comp1"), ("timestamp", "2024-01-01T00:00:00")]
    [.elem (.mk "alpha" "nsA" [] []), .elem (.mk "beta" "nsB" [] [])]

/-- A `data-stream` element lacking the `use-case` attribute. -/
def exDsNoUseCase : XElement :=
  .mk "data-stream" SCAP12_NS [("id", "ds1")] []

/-- The first HTML-flattening example: `We are`, a newline, `the `, an
`em` child with text `best`, and ` project!`. -/
def exHtml1 : XElement :=
  .mk "description" "xccdf" []
    [.text "We are\nthe ", .elem (.mk "em" "xccdf" [] [.text "best"]),
     .text " project!"]

/-- The second HTML-flattening example: `Open it`, a `br` child,
`and then close it `, a `b` child with text `quickly`, and `.`. -/
def exHtml2 : XElement :=
  .mk "description" "xccdf" []
    [.text "Open it", .elem (.mk "br" "xccdf" [] []),
     .text "and then close it ", .elem (.mk "b" "xccdf" [] [.text "quickly"]),
     .text "."]

/-! ## Claim theorems -/

/-- C8: `html_to_string` flattens the two reference documents exactly as
stated: inline markup is stripped but its text kept, an embedded newline
in a text node becomes a space, and a direct `br` child becomes a literal
newline. -/
theorem C8_html_to_string_examples :
    html_to_string exHtml1 = "We are the best project!" ∧
    html_to_string exHtml2 = "Open it\nand then close it quickly." := by
  constructor <;> decide

/-- C1: evaluation of `Rule::from_xml` at the failing inputs.  The claim
(and the spec) say the `role` attribute is read, but the source passes the
literal `"rule"` to `get_attr_default_options`: an element with
`role="unscored"` maps to a rule whose role is the default `"full"`, an
element with the out-of-domain value `role="banana"` maps successfully
instead of failing, and the value is picked up only from an attribute
named `rule`. -/
theorem C1_rule_reads_rule_attribute :
    ruleRoleOf (Rule.from_xml exRuleRole) = .ok "full" ∧
    (Rule.from_xml exRuleBadRole).isOk = true ∧
    ruleRoleOf (Rule.from_xml exRuleBadRole) = .ok "full" ∧
    ruleRoleOf (Rule.from_xml exRuleAttr) = .ok "unscored" := by
  refine ⟨?_, ?_, ?_, ?_⟩ <;> decide

/-- C3: evaluation at the failing input.  `Select::from_xml` runs
`require_attr(el, "selected")?.parse().unwrap()`: with `selected="yes"`
the `unwrap()` panics, so the mapping operation aborts the process instead
of returning a descriptive error; `get_attr_default` itself does return
the error naming element, attribute and offending value. -/
theorem C3_select_panics_on_bad_bool :
    Select.from_xml exSelect = .panicked ∧
    get_attr_default parseBool exFlag "flag" false =
      .err "Element 'person' attribute 'flag' can't parse value 'maybe'." := by
  constructor <;> decide

/-- C2 counterexample: a `component` element carrying `id` and `timestamp`
and TWO element children maps successfully, refuting the claim that more
than one child element makes `Component::from_xml` fail. -/
theorem C2_counterexample_two_children_ok :
    (Component.from_xml exComp2).isOk = true ∧
    exComp2.children.length = 2 := by
  constructor <;> decide

/-- C6 counterexample: a `data-stream` element with `id` but no `use-case`
attribute fails with the missing-required-attribute message, which names
neither the offending value nor the allowed set, refuting the claim that
an absent `use-case` produces an invalid-enumerated-value error. -/
theorem C6_counterexample_absent_use_case :
    DataStream.from_xml exDsNoUseCase =
      .err "Element 'data-stream' doesn't have required 'use-case' attribute" ∧
    strHas "Element 'data-stream' doesn't have required 'use-case' attribute"
      "expected one of" = false ∧
    strHas "Element 'data-stream' doesn't have required 'use-case' attribute"
      "CONFIGURATION" = false := by
  refine ⟨?_, ?_, ?_⟩ <;> decide

/-! ## Helper lemmas about the attribute accessors -/

/-- `require_attr_options` on an absent attribute fails with the
missing-attribute message of `require_attr`. -/
theorem require_attr_options_none (el : XElement) (attr : String)
    (opts : List String) (h : el.attr attr = none) :
    require_attr_options el attr opts = .err (missingAttrMsg el attr) := by
  simp [require_attr_options, require_attr, h]

/-- `require_attr_options` on a present but disallowed value fails with
the invalid-enumerated-value message. -/
theorem require_attr_options_notin (el : XElement) (attr v : String)
    (opts : List String) (h : el.attr attr = some v)
    (hv : opts.contains v = false) :
    require_attr_options el attr opts = .err (enumMsg el attr v opts) := by
  have hv2 : v ∉ opts := by simpa using hv
  simp [require_attr_options, require_attr, h, hv2]

/-- `require_attr_options` on a present allowed value returns it. -/
theorem require_attr_options_in (el : XElement) (attr v : String)
    (opts : List String) (h : el.attr attr = some v)
    (hv : opts.contains v = true) :
    require_attr_options el attr opts = .ok v := by
  have hv2 : v ∈ opts := by simpa using hv
  simp [require_attr_options, require_attr, h, hv2]

/-- A successful `require_attr_options` comes from the attribute being
present with exactly the returned value. -/
theorem require_attr_options_ok_attr {el : XElement} {attr v : String}
    {opts : List String} (h : require_attr_options el attr opts = .ok v) :
    el.attr attr = some v := by
  simp only [require_attr_options, require_attr] at h
  cases hc : el.attr attr with
  | none => simp [hc] at h
  | some w =>
    simp only [hc] at h
    split at h
    · cases h; rfl
    · cases h

/-! ## C9 -/

/-- C9: `require_attr` returns the attribute value when present, and when
absent fails with exactly the message
`Element '<name>' doesn't have required '<attr>' attribute`. -/
theorem C9_require_attr_shape (el : XElement) (attr : String) :
    (∀ v, el.attr attr = some v → require_attr el attr = .ok v) ∧
    (el.attr attr = none →
      require_attr el attr =
        .err ("Element '" ++ el.name ++ "' doesn't have required '" ++ attr ++
          "' attribute")) := by
  constructor
  · intro v h
    simp [require_attr, h]
  · intro h
    simp [require_attr, missingAttrMsg, h]

/-- An element with a `name` attribute. -/
def exPerson : XElement := .mk "person" "people" [("name", "John")] []

/-- An element without a `name` attribute. -/
def exPersonAnon : XElement := .mk "person" "people" [("login", "jdoe")] []

/-- Witness for C9 at concrete inputs. -/
theorem C9_require_attr_shape_witness :
    require_attr exPerson "name" = .ok "John" ∧
    require_attr exPersonAnon "name" =
      .err "Element 'person' doesn't have required 'name' attribute" :=
  ⟨(C9_require_attr_shape exPerson "name").1 "John" rfl,
   (C9_require_attr_shape exPersonAnon "name").2 rfl⟩

/-! ## C2 (amended) -/

/-- C2 amended: for a `component` element carrying `id` and `timestamp`,
zero element children is a parse error naming the component id, but
uniqueness is NOT enforced: with one or more children only the first is
inspected, and the mapping succeeds whenever that first child is not an
XCCDF `Benchmark` (or is one that itself maps successfully). -/
theorem C2_component_children (el : XElement) (i t : String)
    (hid : require_attr el "id" = .ok i)
    (ht : require_attr el "timestamp" = .ok t) :
    (el.children = [] →
      Component.from_xml el =
        .err ("component '" ++ i ++ "' doesn't have any child element")) ∧
    (∀ c rest, el.children = c :: rest →
      ¬ (c.ns = XCCDF12_NS ∧ c.name = "Benchmark") →
      (Component.from_xml el).isOk = true) ∧
    (∀ c rest b, el.children = c :: rest → Benchmark.from_xml c = .ok b →
      (Component.from_xml el).isOk = true) := by
  refine ⟨?_, ?_, ?_⟩
  · intro h
    simp [Component.from_xml, Res.andThen, hid, ht, h]
  · intro c rest h hnb
    simp [Component.from_xml, Res.andThen, hid, ht, h, hnb, Res.isOk]
  · intro c rest b h hb
    by_cases hc : (c.ns = XCCDF12_NS ∧ c.name = "Benchmark")
    · simp [Component.from_xml, Res.andThen, hid, ht, h, hc, hb, Res.map,
        Res.isOk]
    · simp [Component.from_xml, Res.andThen, hid, ht, h, hc, Res.isOk]

/-- A `component` element with no element children. -/
def exCompEmpty : XElement :=
  .mk "component" SCAP12_NS [("id", "comp0"), ("timestamp", "t0")] []

/-- Witness for the amended C2 at concrete inputs: zero children err,
two non-Benchmark children ok. -/
theorem C2_component_children_witness :
    Component.from_xml exCompEmpty =
      .err "component 'comp0' doesn't have any child element" ∧
    (Component.from_xml exComp2).isOk = true :=
  ⟨(C2_component_children exCompEmpty "comp0" "t0" rfl rfl).1 rfl,
   (C2_component_children exComp2 "comp1" "2024-01-01T00:00:00" rfl rfl).2.1
     (.mk "alpha" "nsA" [] []) [.mk "beta" "nsB" [] []] rfl (by decide)⟩

/-! ## C6 (amended) -/

/-- Inversion for a successful `Res.andThen`. -/
theorem Res.andThen_ok {α β : Type} {r : Res α} {f : α → Res β} {b : β}
    (h : r.andThen f = .ok b) : ∃ a, r = .ok a ∧ f a = .ok b := by
  cases r with
  | ok a => exact ⟨a, rfl, h⟩
  | err e => simp [Res.andThen] at h
  | panicked => simp [Res.andThen] at h

/-- C6 amended: an absent `use-case` (resp. `scap-version`) fails with the
missing-required-attribute message (naming element and attribute, not the
allowed set); a present value outside the domain fails with the
invalid-enumerated-value message naming the offending value and the
allowed set; and on success the mapped stream's `use_case` and
`scap_version` equal the attribute values. -/
theorem C6_data_stream_enum_errors :
    (∀ el i, require_attr el "id" = .ok i → el.attr "use-case" = none →
      DataStream.from_xml el = .err (missingAttrMsg el "use-case")) ∧
    (∀ el i v, require_attr el "id" = .ok i → el.attr "use-case" = some v →
      useCaseOpts.contains v = false →
      DataStream.from_xml el = .err (enumMsg el "use-case" v useCaseOpts)) ∧
    (∀ el i u, require_attr el "id" = .ok i → el.attr "use-case" = some u →
      useCaseOpts.contains u = true → el.attr "scap-version" = none →
      DataStream.from_xml el = .err (missingAttrMsg el "scap-version")) ∧
    (∀ el i u v, require_attr el "id" = .ok i → el.attr "use-case" = some u →
      useCaseOpts.contains u = true → el.attr "scap-version" = some v →
      scapVersionOpts.contains v = false →
      DataStream.from_xml el =
        .err (enumMsg el "scap-version" v scapVersionOpts)) ∧
    (∀ el ds, DataStream.from_xml el = .ok ds →
      el.attr "use-case" = some ds.use_case ∧
      el.attr "scap-version" = some ds.scap_version) := by
  refine ⟨?_, ?_, ?_, ?_, ?_⟩
  · intro el i hid h
    simp [DataStream.from_xml, Res.andThen, hid,
      require_attr_options_none el "use-case" useCaseOpts h]
  · intro el i v hid h hv
    simp [DataStream.from_xml, Res.andThen, hid,
      require_attr_options_notin el "use-case" v useCaseOpts h hv]
  · intro el i u hid hu huin h
    simp [DataStream.from_xml, Res.andThen, hid,
      require_attr_options_in el "use-case" u useCaseOpts hu huin,
      require_attr_options_none el "scap-version" scapVersionOpts h]
  · intro el i u v hid hu huin hv hvnotin
    simp [DataStream.from_xml, Res.andThen, hid,
      require_attr_options_in el "use-case" u useCaseOpts hu huin,
      require_attr_options_notin el "scap-version" v scapVersionOpts hv hvnotin]
  · intro el ds h
    simp only [DataStream.from_xml] at h
    obtain ⟨i, hi, h⟩ := Res.andThen_ok h
    obtain ⟨u, hu, h⟩ := Res.andThen_ok h
    obtain ⟨sv, hsv, h⟩ := Res.andThen_ok h
    obtain ⟨d1, hd1, h⟩ := Res.andThen_ok h
    obtain ⟨d2, hd2, h⟩ := Res.andThen_ok h
    obtain ⟨d3, hd3, h⟩ := Res.andThen_ok h
    obtain ⟨d4, hd4, h⟩ := Res.andThen_ok h
    cases h
    exact ⟨require_attr_options_ok_attr hu, require_attr_options_ok_attr hsv⟩

/-- A `data-stream` element with an out-of-domain `use-case`. -/
def exDsBadUseCase : XElement :=
  .mk "data-stream" SCAP12_NS [("id", "ds1"), ("use-case", "BANANA")] []

/-- A `data-stream` element missing `scap-version`. -/
def exDsNoScapVersion : XElement :=
  .mk "data-stream" SCAP12_NS [("id", "ds1"), ("use-case", "CONFIGURATION")] []

/-- A `data-stream` element with an out-of-domain `scap-version`. -/
def exDsBadScapVersion : XElement :=
  .mk "data-stream" SCAP12_NS
    [("id", "ds1"), ("use-case", "CONFIGURATION"), ("scap-version", "9.9")] []

/-- A well-formed minimal `data-stream` element. -/
def exDsOk : XElement :=
  .mk "data-stream" SCAP12_NS
    [("id", "ds1"), ("use-case", "CONFIGURATION"), ("scap-version", "1.2")] []

/-- Witness for the amended C6 at concrete inputs. -/
theorem C6_data_stream_enum_errors_witness :
    DataStream.from_xml exDsNoUseCase =
      .err "Element 'data-stream' doesn't have required 'use-case' attribute" ∧
    DataStream.from_xml exDsBadUseCase =
      .err "Element 'data-stream' attribute 'use-case'='BANANA', but expected one of [\"CONFIGURATION\", \"VULNERABILITY\", \"INVENTORY\", \"OTHER\"]" ∧
    DataStream.from_xml exDsNoScapVersion =
      .err "Element 'data-stream' doesn't have required 'scap-version' attribute" ∧
    DataStream.from_xml exDsBadScapVersion =
      .err "Element 'data-stream' attribute 'scap-version'='9.9', but expected one of [\"1.0\", \"1.1\", \"1.2\", \"1.3\"]" ∧
    exDsOk.attr "use-case" = some "CONFIGURATION" ∧
    exDsOk.attr "scap-version" = some "1.2" := by
  have h5 := C6_data_stream_enum_errors.2.2.2.2 exDsOk
    ⟨"ds1", "CONFIGURATION", "1.2", none, [], [], [], []⟩ (by decide)
  refine ⟨?_, ?_, ?_, ?_, h5.1, h5.2⟩
  · rw [C6_data_stream_enum_errors.1 exDsNoUseCase "ds1" rfl rfl]
    decide
  · rw [C6_data_stream_enum_errors.2.1 exDsBadUseCase "ds1" "BANANA" rfl rfl
      (by decide)]
    decide
  · rw [C6_data_stream_enum_errors.2.2.1 exDsNoScapVersion "ds1"
      "CONFIGURATION" rfl rfl (by decide) rfl]
    decide
  · rw [C6_data_stream_enum_errors.2.2.2.1 exDsBadScapVersion "ds1"
      "CONFIGURATION" "9.9" rfl rfl (by decide) rfl (by decide)]
    decide

/-! ## C10 -/

/-- `htmlNodes` distributes over list append. -/
theorem htmlNodes_append (a b : List XNode) :
    htmlNodes (a ++ b) = htmlNodes a ++ htmlNodes b := by
  induction a with
  | nil => simp [htmlNodes]
  | cons n rest ih =>
    cases n with
    | text s => simp [htmlNodes, ih, String.append_assoc]
    | elem e => simp [htmlNodes, ih, String.append_assoc]

/-- `XNode.listText` distributes over list append. -/
theorem listText_append (a b : List XNode) :
    XNode.listText (a ++ b) = XNode.listText a ++ XNode.listText b := by
  induction a with
  | nil => simp [XNode.listText]
  | cons n rest ih =>
    cases n with
    | text s => simp [XNode.listText, ih, String.append_assoc]
    | elem e => simp [XNode.listText, ih, String.append_assoc]

/-- C10: `html_to_string` is not applied recursively.  A direct child
element other than `br` contributes exactly its own recursively
concatenated descendant text with newlines replaced by spaces
(`replaceNl (textOf child)`), and an empty `br` element nested one level
deeper (inside such a child) contributes neither a newline nor any text:
inserting it among the child's nodes leaves the output unchanged. -/
theorem C10_nested_br_not_special (oname ons : String)
    (oattrs : List (String × String)) (pre post : List XNode)
    (cname cns : String) (cattrs : List (String × String))
    (in1 in2 : List XNode) (bns : String) (battrs : List (String × String))
    (hname : cname ≠ "br") :
    html_to_string (.mk oname ons oattrs
        (pre ++ .elem (.mk cname cns cattrs in1) :: post)) =
      htmlNodes pre ++
        replaceNl (XElement.textOf (.mk cname cns cattrs in1)) ++
        htmlNodes post ∧
    html_to_string (.mk oname ons oattrs
        (pre ++ .elem (.mk cname cns cattrs
          (in1 ++ .elem (.mk "br" bns battrs []) :: in2)) :: post)) =
      html_to_string (.mk oname ons oattrs
        (pre ++ .elem (.mk cname cns cattrs (in1 ++ in2)) :: post)) := by
  constructor
  · simp [html_to_string, XElement.nodes, htmlNodes_append, htmlNodes,
      XElement.name, hname, String.append_assoc]
  · have hbody : XNode.listText (in1 ++ .elem (.mk "br" bns battrs []) :: in2)
        = XNode.listText (in1 ++ in2) := by
      rw [listText_append, listText_append]
      simp [XNode.listText, XElement.textOf]
    simp [html_to_string, XElement.nodes, htmlNodes_append, htmlNodes,
      XElement.name, hname, XElement.textOf, hbody]

/-- Witness for C10 at a concrete input: the nested `br` inside the `em`
child contributes nothing, and the child contributes its flattened
descendant text. -/
theorem C10_nested_br_not_special_witness :
    html_to_string (.mk "description" "xccdf" []
        [.text "a", .elem (.mk "em" "xccdf" []
          [.text "x", .elem (.mk "br" "xccdf" [] []), .text "y"]), .text "b"]) =
      html_to_string (.mk "description" "xccdf" []
        [.text "a", .elem (.mk "em" "xccdf" [] [.text "x", .text "y"]),
         .text "b"]) ∧
    html_to_string (.mk "description" "xccdf" []
        [.text "a", .elem (.mk "em" "xccdf" []
          [.text "x", .elem (.mk "br" "xccdf" [] []), .text "y"]), .text "b"]) =
      "axyb" := by
  have h := C10_nested_br_not_special "description" "xccdf" []
    [.text "a"] [.text "b"] "em" "xccdf" [] [.text "x"] [.text "y"]
    "xccdf" [] (by decide)
  exact ⟨h.2, by decide⟩

/-! ## Benchmark child-loop lemmas (for C5 and C7) -/

/-- Inversion for a successful `Res.map`. -/
theorem Res.map_ok {α β : Type} {f : α → β} {r : Res α} {b : β}
    (h : Res.map f r = .ok b) : ∃ a, r = .ok a ∧ b = f a := by
  cases r with
  | ok a =>
    simp only [Res.map, Res.ok.injEq] at h
    exact ⟨a, rfl, h.symm⟩
  | err e => simp [Res.map] at h
  | panicked => simp [Res.map] at h

/-- A success is exactly an `ok` value. -/
theorem Res.isOk_iff {α : Type} {r : Res α} : r.isOk = true ↔ ∃ a, r = .ok a := by
  cases r <;> simp [Res.isOk]

/-- 0 for `none`, 1 for `some`. -/
def optCount : Option α → Nat
  | none => 0
  | some _ => 1

/-- The child names recognized by the dispatch of `Benchmark::from_xml`. -/
def recognizedBench (n : String) : Bool :=
  match n with
  | "status" | "title" | "description" | "notice" | "front-matter"
  | "rear-matter" | "reference" | "plain-text" | "platform-specification"
  | "platform" | "version" | "metadata" | "model" | "Profile" | "Value"
  | "Group" | "Rule" | "TestResult" => true
  | _ => false

/-- The number of children with local name `version`. -/
def vCount (cs : List XElement) : Nat :=
  (cs.filter (fun c => c.name == "version")).length

/-- An unrecognized child name makes `benchStep` fail with the
unexpected-element message. -/
theorem benchStep_unexpected {c : XElement} (acc : BenchAcc)
    (h : recognizedBench c.name = false) :
    benchStep c acc = .err ("unexpected element " ++ c.name) := by
  simp only [benchStep]
  split
  all_goals
    (try rfl)
  all_goals
    (rename_i heq; rw [heq] at h; exact absurd h (by decide))

/-- A second `version` child makes `benchStep` fail at once. -/
theorem benchStep_dup_version {c : XElement} {acc : BenchAcc} {v : Version}
    (hname : c.name = "version") (hv : acc.version = some v) :
    benchStep c acc = .err "Duplicate version elements" := by
  simp [benchStep, hname, hv]

/-- A second `platform-specification` child makes `benchStep` fail at
once. -/
theorem benchStep_dup_platform {c : XElement} {acc : BenchAcc}
    {p : PlatformSpecification} (hname : c.name = "platform-specification")
    (hp : acc.platform_specification = some p) :
    benchStep c acc = .err "Duplicate platform elements" := by
  simp [benchStep, hname, hp]

/-- A successful `benchStep` only happens on recognized child names, and
tracks the `version` singleton: the count rises by one exactly on a
`version` child (which moreover requires that no version was seen yet). -/
theorem benchStep_ok_spec {c : XElement} {acc acc2 : BenchAcc}
    (h : benchStep c acc = .ok acc2) :
    recognizedBench c.name = true ∧
    optCount acc2.version =
      optCount acc.version + (if c.name = "version" then 1 else 0) := by
  simp only [benchStep] at h
  split at h
  all_goals (try (obtain ⟨x, hx, rfl⟩ := Res.map_ok h))
  all_goals (try (split at h))
  all_goals (try (obtain ⟨x, hx, rfl⟩ := Res.map_ok h))
  all_goals simp_all [recognizedBench, optCount]

/-- `benchLoop` over an appended list runs the two segments in order,
stopping at the first failure. -/
theorem benchLoop_append (a b : List XElement) (acc : BenchAcc) :
    benchLoop (a ++ b) acc =
      (benchLoop a acc).andThen (fun acc2 => benchLoop b acc2) := by
  induction a generalizing acc with
  | nil => simp [benchLoop, Res.andThen]
  | cons c rest ih =>
    simp only [List.cons_append, benchLoop]
    cases benchStep c acc <;> simp [Res.andThen, ih]

/-- A successful `benchLoop` saw only recognized child names and exactly
`vCount` many `version` children, tracked in the accumulator. -/
theorem benchLoop_ok_spec {cs : List XElement} {acc acc2 : BenchAcc}
    (h : benchLoop cs acc = .ok acc2) :
    optCount acc2.version = optCount acc.version + vCount cs ∧
    ∀ c ∈ cs, recognizedBench c.name = true := by
  induction cs generalizing acc with
  | nil =>
    simp only [benchLoop, Res.ok.injEq] at h
    subst h
    simp [vCount]
  | cons c rest ih =>
    simp only [benchLoop] at h
    cases hstep : benchStep c acc with
    | ok accm =>
      rw [hstep] at h
      obtain ⟨hrec, hv⟩ := benchStep_ok_spec hstep
      obtain ⟨ihv, ihrec⟩ := ih h
      refine ⟨?_, ?_⟩
      · rw [ihv, hv]
        by_cases hn : c.name = "version"
        · simp only [vCount, List.filter, hn, beq_self_eq_true,
            List.length_cons, if_true]
          omega
        · have hb2 : (c.name == "version") = false := by
            simpa using hn
          simp only [vCount, List.filter, hb2, hn, if_false]
          omega
      · intro d hd
        cases hd with
        | head => exact hrec
        | tail _ hd => exact ihrec d hd
    | err e => rw [hstep] at h; cases h
    | panicked => rw [hstep] at h; cases h

/-- Unfolding of `Benchmark::from_xml` once the element check, the `id`
and the `resolved` attributes succeed. -/
theorem benchmark_from_xml_unfold {el : XElement} {i : String} {b : Bool}
    (hb : el.isElem "Benchmark" XCCDF12_NS = true)
    (hid : require_attr el "id" = .ok i)
    (hres : get_attr_default_bool el "resolved" false = .ok b) :
    Benchmark.from_xml el =
      (benchLoop el.children BenchAcc.init).andThen (fun acc =>
        if acc.statuses.length = 0 then
          .err ("xccdf:Benchmark " ++ i ++ ": missing status element")
        else
          match acc.version with
          | none => .err ("xccdf:Benchmark " ++ i ++ ": missing version element")
          | some version =>
            .ok { id := i, resolved := b, style := get_attr el "style",
                  style_href := get_attr el "style-href",
                  statuses := acc.statuses, titles := acc.titles,
                  descriptions := acc.descriptions, notices := acc.notices,
                  front_matters := acc.front_matters,
                  rear_matters := acc.rear_matters,
                  references := acc.references,
                  plain_texts := acc.plain_texts,
                  platform_specification := acc.platform_specification,
                  platforms := acc.platforms, version := version,
                  metadata := acc.metadata, models := acc.models,
                  profiles := acc.profiles, values := acc.values,
                  groups := acc.groups, rules := acc.rules,
                  test_results := acc.test_results }) := by
  simp [Benchmark.from_xml, hb, hid, hres, Res.andThen]

/-- C5: on an XCCDF `Benchmark` element whose `id` and `resolved`
attributes read successfully, a second `version` child (or a second
`platform-specification` child) reached by the child pass aborts the
mapping at once with the corresponding duplicate-element error; after a
successful child pass, no `status` child (resp. no `version` child) fails
with a message embedding the benchmark id; and a successful mapping has
at least one status and exactly one `version` child. -/
theorem C5_benchmark_singletons (el : XElement) (i : String) (b : Bool)
    (hb : el.isElem "Benchmark" XCCDF12_NS = true)
    (hid : require_attr el "id" = .ok i)
    (hres : get_attr_default_bool el "resolved" false = .ok b) :
    (∀ pre c rest acc v, el.children = pre ++ c :: rest →
      benchLoop pre BenchAcc.init = .ok acc → acc.version = some v →
      c.name = "version" →
      Benchmark.from_xml el = .err "Duplicate version elements") ∧
    (∀ pre c rest acc p, el.children = pre ++ c :: rest →
      benchLoop pre BenchAcc.init = .ok acc →
      acc.platform_specification = some p →
      c.name = "platform-specification" →
      Benchmark.from_xml el = .err "Duplicate platform elements") ∧
    (∀ acc, benchLoop el.children BenchAcc.init = .ok acc →
      acc.statuses.length = 0 →
      Benchmark.from_xml el =
        .err ("xccdf:Benchmark " ++ i ++ ": missing status element")) ∧
    (∀ acc, benchLoop el.children BenchAcc.init = .ok acc →
      acc.statuses.length ≠ 0 → acc.version = none →
      Benchmark.from_xml el =
        .err ("xccdf:Benchmark " ++ i ++ ": missing version element")) ∧
    (∀ bm, Benchmark.from_xml el = .ok bm →
      1 ≤ bm.statuses.length ∧ vCount el.children = 1) := by
  refine ⟨?_, ?_, ?_, ?_, ?_⟩
  · intro pre c rest acc v hch hpre hv hname
    rw [benchmark_from_xml_unfold hb hid hres, hch, benchLoop_append]
    rw [hpre]
    simp only [Res.andThen, benchLoop]
    rw [benchStep_dup_version hname hv]
  · intro pre c rest acc p hch hpre hp hname
    rw [benchmark_from_xml_unfold hb hid hres, hch, benchLoop_append]
    rw [hpre]
    simp only [Res.andThen, benchLoop]
    rw [benchStep_dup_platform hname hp]
  · intro acc hloop hs
    rw [benchmark_from_xml_unfold hb hid hres, hloop]
    simp [Res.andThen, hs]
  · intro acc hloop hs hv
    rw [benchmark_from_xml_unfold hb hid hres, hloop]
    simp [Res.andThen, hs, hv]
  · intro bm h
    rw [benchmark_from_xml_unfold hb hid hres] at h
    obtain ⟨acc, hloop, h⟩ := Res.andThen_ok h
    obtain ⟨hcount, _⟩ := benchLoop_ok_spec hloop
    by_cases hs : acc.statuses.length = 0
    · simp [hs] at h
    · simp only [hs, if_false] at h
      cases hv : acc.version with
      | none => rw [hv] at h; cases h
      | some v =>
        rw [hv] at h
        cases h
        constructor
        · simpa using Nat.one_le_iff_ne_zero.mpr hs
        · rw [hv] at hcount
          simpa [optCount, BenchAcc.init] using hcount.symm

/-- A minimal valid `status` child (`accepted`). -/
def exStatusEl : XElement := .mk "status" XCCDF12_NS [] [.text "accepted"]

/-- A minimal `version` child. -/
def exVersionEl : XElement := .mk "version" XCCDF12_NS [] [.text "1"]

/-- A minimal `platform-specification` child. -/
def exPlatSpecEl : XElement := .mk "platform-specification" XCCDF12_NS [] []

/-- A Benchmark element with two `version` children. -/
def exBenchDupVersion : XElement :=
  .mk "Benchmark" XCCDF12_NS [("id", "bench1")]
    [.elem exStatusEl, .elem exVersionEl, .elem exVersionEl]

/-- A Benchmark element with two `platform-specification` children. -/
def exBenchDupPlatform : XElement :=
  .mk "Benchmark" XCCDF12_NS [("id", "bench2")]
    [.elem exPlatSpecEl, .elem exPlatSpecEl]

/-- A Benchmark element with a `version` child but no `status` child. -/
def exBenchNoStatus : XElement :=
  .mk "Benchmark" XCCDF12_NS [("id", "bench3")] [.elem exVersionEl]

/-- A Benchmark element with a `status` child but no `version` child. -/
def exBenchNoVersion : XElement :=
  .mk "Benchmark" XCCDF12_NS [("id", "bench4")] [.elem exStatusEl]

/-- A minimal valid Benchmark element. -/
def exBenchOk : XElement :=
  .mk "Benchmark" XCCDF12_NS [("id", "bench5")]
    [.elem exStatusEl, .elem exVersionEl]

/-- The model of `exBenchOk`. -/
def exBenchOkResult : Benchmark :=
  { id := "bench5", resolved := false, style := none, style_href := none,
    statuses := [⟨none, "accepted"⟩], titles := [], descriptions := [],
    notices := [], front_matters := [], rear_matters := [], references := [],
    plain_texts := [], platform_specification := none, platforms := [],
    version := ⟨"1"⟩, metadata := [], models := [], profiles := [],
    values := [], groups := [], rules := [], test_results := [] }

/-- Witness for C5 at concrete inputs. -/
theorem C5_benchmark_singletons_witness :
    Benchmark.from_xml exBenchDupVersion = .err "Duplicate version elements" ∧
    Benchmark.from_xml exBenchDupPlatform = .err "Duplicate platform elements" ∧
    Benchmark.from_xml exBenchNoStatus =
      .err "xccdf:Benchmark bench3: missing status element" ∧
    Benchmark.from_xml exBenchNoVersion =
      .err "xccdf:Benchmark bench4: missing version element" ∧
    1 ≤ exBenchOkResult.statuses.length ∧ vCount exBenchOk.children = 1 := by
  refine ⟨?_, ?_, ?_, ?_, ?_, ?_⟩
  · exact (C5_benchmark_singletons exBenchDupVersion "bench1" false rfl rfl
      rfl).1 [exStatusEl, exVersionEl] exVersionEl []
      ⟨[⟨none, "accepted"⟩], [], [], [], [], [], [], [], none, [],
        some ⟨"1"⟩, [], [], [], [], [], [], []⟩ ⟨"1"⟩ rfl rfl rfl rfl
  · exact (C5_benchmark_singletons exBenchDupPlatform "bench2" false rfl rfl
      rfl).2.1 [exPlatSpecEl] exPlatSpecEl []
      ⟨[], [], [], [], [], [], [], [], some ⟨""⟩, [], none, [], [], [], [],
        [], [], []⟩ ⟨""⟩ rfl rfl rfl rfl
  · rw [(C5_benchmark_singletons exBenchNoStatus "bench3" false rfl rfl
      rfl).2.2.1 ⟨[], [], [], [], [], [], [], [], none, [], some ⟨"1"⟩, [],
        [], [], [], [], [], []⟩ rfl rfl]
    exact congrArg Res.err (by decide)
  · rw [(C5_benchmark_singletons exBenchNoVersion "bench4" false rfl rfl
      rfl).2.2.2.1 ⟨[⟨none, "accepted"⟩], [], [], [], [], [], [], [], none,
        [], none, [], [], [], [], [], [], []⟩ rfl (by decide) rfl]
    exact congrArg Res.err (by decide)
  · exact ((C5_benchmark_singletons exBenchOk "bench5" false rfl rfl
      rfl).2.2.2.2 exBenchOkResult rfl).1
  · exact ((C5_benchmark_singletons exBenchOk "bench5" false rfl rfl
      rfl).2.2.2.2 exBenchOkResult rfl).2

/-! ## C7: tolerance at the collection level, strictness in Benchmark -/

/-- `elemsOf` distributes over append. -/
theorem elemsOf_append (a b : List XNode) :
    elemsOf (a ++ b) = elemsOf a ++ elemsOf b := by
  induction a with
  | nil => simp [elemsOf]
  | cons n rest ih => cases n <;> simp [elemsOf, ih]

/-- `Res.andThen` only depends on the continuation's values. -/
theorem Res.andThen_congr {α β : Type} {r : Res α} {f g : α → Res β}
    (h : ∀ a, f a = g a) : r.andThen f = r.andThen g := by
  cases r <;> simp [Res.andThen, h]

/-- A child outside the four recognized (name, namespace) buckets is
skipped by `collStep`, leaving the accumulator unchanged. -/
theorem collStep_skip {u : XElement} (acc : CollAcc)
    (h1 : u.isElem "data-stream" SCAP12_NS = false)
    (h2 : u.isElem "component" SCAP12_NS = false)
    (h3 : u.isElem "extended-component" SCAP12_NS = false)
    (h4 : u.isElem "Signature" DSIG_NS = false) :
    collStep u acc = .ok acc := by
  simp [collStep, h1, h2, h3, h4]

/-- `collLoop` over an appended list runs the two segments in order. -/
theorem collLoop_append (a b : List XElement) (acc : CollAcc) :
    collLoop (a ++ b) acc =
      (collLoop a acc).andThen (fun acc2 => collLoop b acc2) := by
  induction a generalizing acc with
  | nil => simp [collLoop, Res.andThen]
  | cons c rest ih =>
    simp only [List.cons_append, collLoop]
    cases collStep c acc <;> simp [Res.andThen, ih]

/-- C7: at the collection level an element child in none of the four
recognized (name, namespace) buckets is silently skipped - removing it
does not change the result at all - while in `Benchmark::from_xml` a
child with an unrecognized local name reached by the child pass fails the
mapping with the unexpected-element error naming that child, and the
presence of any such child means the mapping never succeeds. -/
theorem C7_unknown_children :
    (∀ (rname : String) (attrs : List (String × String))
      (ns1 ns2 : List XNode) (u : XElement),
      u.isElem "data-stream" SCAP12_NS = false →
      u.isElem "component" SCAP12_NS = false →
      u.isElem "extended-component" SCAP12_NS = false →
      u.isElem "Signature" DSIG_NS = false →
      DataStreamCollection.from_xml
          (.mk rname SCAP12_NS attrs (ns1 ++ .elem u :: ns2)) =
        DataStreamCollection.from_xml (.mk rname SCAP12_NS attrs (ns1 ++ ns2))) ∧
    (∀ el i b pre c rest acc,
      el.isElem "Benchmark" XCCDF12_NS = true →
      require_attr el "id" = .ok i →
      get_attr_default_bool el "resolved" false = .ok b →
      el.children = pre ++ c :: rest →
      benchLoop pre BenchAcc.init = .ok acc →
      recognizedBench c.name = false →
      Benchmark.from_xml el = .err ("unexpected element " ++ c.name)) ∧
    (∀ el c, c ∈ el.children → recognizedBench c.name = false →
      (Benchmark.from_xml el).isOk = false) := by
  refine ⟨?_, ?_, ?_⟩
  · intro rname attrs ns1 ns2 u h1 h2 h3 h4
    have hskip : ∀ acc, collStep u acc = .ok acc :=
      fun acc => collStep_skip acc h1 h2 h3 h4
    have hcl : ∀ acc, collLoop (elemsOf ns1 ++ u :: elemsOf ns2) acc =
        collLoop (elemsOf ns1 ++ elemsOf ns2) acc := by
      intro acc
      rw [collLoop_append, collLoop_append]
      refine Res.andThen_congr (fun a => ?_)
      simp only [collLoop, hskip a]
    simp only [DataStreamCollection.from_xml, XElement.ns, XElement.children,
      XElement.nodes, elemsOf_append, elemsOf, require_attr, XElement.attr,
      XElement.attrList, XElement.name, missingAttrMsg]
    rw [hcl CollAcc.init]
  · intro el i b pre c rest acc hb hid hres hch hpre hname
    rw [benchmark_from_xml_unfold hb hid hres, hch, benchLoop_append, hpre]
    simp only [Res.andThen, benchLoop]
    rw [benchStep_unexpected acc hname]
  · intro el c hc hname
    cases hok : (Benchmark.from_xml el).isOk
    · rfl
    · exfalso
      obtain ⟨bm, hbm⟩ := Res.isOk_iff.mp hok
      by_cases hb : el.isElem "Benchmark" XCCDF12_NS = true
      · rw [Benchmark.from_xml] at hbm
        simp only [hb, not_true_eq_false, if_false] at hbm
        obtain ⟨i2, hi2, hbm⟩ := Res.andThen_ok hbm
        obtain ⟨b2, hb2, hbm⟩ := Res.andThen_ok hbm
        obtain ⟨acc2, hloop, _⟩ := Res.andThen_ok hbm
        have hrec := (benchLoop_ok_spec hloop).2 c hc
        simp [hrec] at hname
      · rw [Benchmark.from_xml] at hbm
        simp only [Bool.not_eq_true] at hb
        simp [hb] at hbm

/-- An unrecognized sibling at the collection level. -/
def exUnknownChild : XElement := .mk "foo" "other-ns" [] []

/-- A Benchmark child with an unrecognized name. -/
def exBogusChild : XElement := .mk "bogus" XCCDF12_NS [] []

/-- A Benchmark element containing an unrecognized child. -/
def exBenchBogus : XElement :=
  .mk "Benchmark" XCCDF12_NS [("id", "bench6")]
    [.elem exStatusEl, .elem exBogusChild]

/-- Witness for C7 at concrete inputs. -/
theorem C7_unknown_children_witness :
    DataStreamCollection.from_xml
        (.mk "data-stream-collection" SCAP12_NS
          [("id", "col1"), ("schematron-version", "1.2")]
          [.elem exDsOk, .elem exUnknownChild, .elem exComp2]) =
      DataStreamCollection.from_xml
        (.mk "data-stream-collection" SCAP12_NS
          [("id", "col1"), ("schematron-version", "1.2")]
          [.elem exDsOk, .elem exComp2]) ∧
    Benchmark.from_xml exBenchBogus = .err "unexpected element bogus" ∧
    (Benchmark.from_xml exBenchBogus).isOk = false := by
  refine ⟨?_, ?_, ?_⟩
  · exact C7_unknown_children.1 "data-stream-collection"
      [("id", "col1"), ("schematron-version", "1.2")] [.elem exDsOk]
      [.elem exComp2] exUnknownChild (by decide) (by decide) (by decide)
      (by decide)
  · rw [C7_unknown_children.2.1 exBenchBogus "bench6" false [exStatusEl]
      exBogusChild []
      ⟨[⟨none, "accepted"⟩], [], [], [], [], [], [], [], none, [], none, [],
        [], [], [], [], [], []⟩ rfl rfl rfl rfl rfl (by decide)]
    exact congrArg Res.err (by decide)
  · refine C7_unknown_children.2.2 exBenchBogus exBogusChild ?_ (by decide)
    simp [XElement.children, XElement.nodes, elemsOf, exBenchBogus]

/-! ## C4: collection cardinality -/

/-- Does this collection child map successfully?  Children outside the
four recognized buckets are skipped, hence count as successful. -/
def collChildOk (c : XElement) : Bool :=
  if c.isElem "data-stream" SCAP12_NS then (DataStream.from_xml c).isOk
  else if c.isElem "component" SCAP12_NS then (Component.from_xml c).isOk
  else if c.isElem "extended-component" SCAP12_NS then
    (ExtendedComponent.from_xml c).isOk
  else if c.isElem "Signature" DSIG_NS then (Signature.from_xml c).isOk
  else true

/-- Number of `data-stream` children (in the SCAP namespace). -/
def dsChildCount (cs : List XElement) : Nat :=
  (cs.filter (fun c => c.isElem "data-stream" SCAP12_NS)).length

/-- Number of `component` children (in the SCAP namespace). -/
def compChildCount (cs : List XElement) : Nat :=
  (cs.filter (fun c => c.isElem "component" SCAP12_NS)).length

/-- An element matching one qualified name does not match another name. -/
theorem isElem_ne_name {c : XElement} {n1 s1 n2 s2 : String}
    (h : c.isElem n1 s1 = true) (hne : n1 ≠ n2) : c.isElem n2 s2 = false := by
  simp only [XElement.isElem, Bool.and_eq_true, decide_eq_true_eq] at h
  simp [XElement.isElem, h.1, hne]

/-- A successfully mapping child advances `collStep`, incrementing the
`data-stream` and `component` vectors exactly when the child is in the
corresponding bucket. -/
theorem collStep_ok_of_child {c : XElement} (acc : CollAcc)
    (h : collChildOk c = true) :
    ∃ acc2, collStep c acc = .ok acc2 ∧
      acc2.data_streams.length = acc.data_streams.length +
        (if c.isElem "data-stream" SCAP12_NS then 1 else 0) ∧
      acc2.components.length = acc.components.length +
        (if c.isElem "component" SCAP12_NS then 1 else 0) := by
  by_cases h1 : c.isElem "data-stream" SCAP12_NS = true
  · have h2 : c.isElem "component" SCAP12_NS = false :=
      isElem_ne_name h1 (by decide)
    rw [collChildOk] at h
    simp only [h1, if_true] at h
    obtain ⟨x, hx⟩ := Res.isOk_iff.mp h
    exact ⟨{ acc with data_streams := acc.data_streams ++ [x] },
      by simp [collStep, h1, hx, Res.map], by simp [h1], by simp [h2]⟩
  · by_cases h2 : c.isElem "component" SCAP12_NS = true
    · rw [collChildOk] at h
      simp only [h1, h2, if_true, if_false, Bool.false_eq_true] at h
      obtain ⟨x, hx⟩ := Res.isOk_iff.mp h
      exact ⟨{ acc with components := acc.components ++ [x] },
        by simp [collStep, h1, h2, hx, Res.map], by simp [h1], by simp [h2]⟩
    · by_cases h3 : c.isElem "extended-component" SCAP12_NS = true
      · rw [collChildOk] at h
        simp only [h1, h2, h3, if_true, if_false, Bool.false_eq_true] at h
        obtain ⟨x, hx⟩ := Res.isOk_iff.mp h
        exact ⟨{ acc with extended_components := acc.extended_components ++ [x] },
          by simp [collStep, h1, h2, h3, hx, Res.map], by simp [h1],
          by simp [h2]⟩
      · by_cases h4 : c.isElem "Signature" DSIG_NS = true
        · rw [collChildOk] at h
          simp only [h1, h2, h3, h4, if_true, if_false,
            Bool.false_eq_true] at h
          obtain ⟨x, hx⟩ := Res.isOk_iff.mp h
          exact ⟨{ acc with signatures := acc.signatures ++ [x] },
            by simp [collStep, h1, h2, h3, h4, hx, Res.map], by simp [h1],
            by simp [h2]⟩
        · exact ⟨acc, by simp [collStep, h1, h2, h3, h4], by simp [h1],
            by simp [h2]⟩

/-- A failing child makes `collStep` fail. -/
theorem collStep_bad {c : XElement} (acc : CollAcc)
    (hbad : collChildOk c = false) : (collStep c acc).isOk = false := by
  rw [collChildOk] at hbad
  rw [collStep]
  by_cases h1 : c.isElem "data-stream" SCAP12_NS = true
  · simp only [h1, if_true] at hbad ⊢
    cases hx : DataStream.from_xml c <;>
      simp_all [Res.map, Res.isOk]
  · by_cases h2 : c.isElem "component" SCAP12_NS = true
    · simp only [h1, h2, if_true, if_false, Bool.false_eq_true] at hbad ⊢
      cases hx : Component.from_xml c <;> simp_all [Res.map, Res.isOk]
    · by_cases h3 : c.isElem "extended-component" SCAP12_NS = true
      · simp only [h1, h2, h3, if_true, if_false, Bool.false_eq_true] at hbad ⊢
        cases hx : ExtendedComponent.from_xml c <;>
          simp_all [Res.map, Res.isOk]
      · by_cases h4 : c.isElem "Signature" DSIG_NS = true
        · simp only [h1, h2, h3, h4, if_true, if_false,
            Bool.false_eq_true] at hbad ⊢
          cases hx : Signature.from_xml c <;> simp_all [Res.map, Res.isOk]
        · simp [h1, h2, h3, h4] at hbad

/-- If every child maps, `collLoop` succeeds and the accumulated vectors
grow by exactly the per-bucket child counts. -/
theorem collLoop_all_ok {cs : List XElement} (acc : CollAcc)
    (h : ∀ c ∈ cs, collChildOk c = true) :
    ∃ acc2, collLoop cs acc = .ok acc2 ∧
      acc2.data_streams.length = acc.data_streams.length + dsChildCount cs ∧
      acc2.components.length = acc.components.length + compChildCount cs := by
  induction cs generalizing acc with
  | nil => exact ⟨acc, rfl, by simp [dsChildCount], by simp [compChildCount]⟩
  | cons c rest ih =>
    obtain ⟨accm, hstep, hds, hcomp⟩ :=
      collStep_ok_of_child acc (h c (by simp))
    obtain ⟨acc2, hloop, hds2, hcomp2⟩ :=
      ih accm (fun d hd => h d (by simp [hd]))
    refine ⟨acc2, by simp only [collLoop, hstep, hloop], ?_, ?_⟩
    · rw [hds2, hds]
      by_cases h1 : c.isElem "data-stream" SCAP12_NS = true <;>
        (simp [dsChildCount, List.filter_cons, h1]; try omega)
    · rw [hcomp2, hcomp]
      by_cases h2 : c.isElem "component" SCAP12_NS = true <;>
        (simp [compChildCount, List.filter_cons, h2]; try omega)

/-- A failing child anywhere in the list makes `collLoop` fail. -/
theorem collLoop_bad {cs : List XElement} (acc : CollAcc) {c : XElement}
    (hc : c ∈ cs) (hbad : collChildOk c = false) :
    (collLoop cs acc).isOk = false := by
  induction hc generalizing acc with
  | head rest =>
    cases hstep : collStep c acc with
    | ok a =>
      have hfalse := collStep_bad acc hbad
      rw [hstep] at hfalse
      simp [Res.isOk] at hfalse
    | err e => simp [collLoop, hstep, Res.isOk]
    | panicked => simp [collLoop, hstep, Res.isOk]
  | tail d hmem ih =>
    cases hstep : collStep d acc with
    | ok a => simp only [collLoop, hstep]; exact ih a
    | err e => simp [collLoop, hstep, Res.isOk]
    | panicked => simp [collLoop, hstep, Res.isOk]

/-- Unfolding of `DataStreamCollection::from_xml` once the namespace check
and the two required attributes succeed. -/
theorem coll_from_xml_unfold {el : XElement} {i sv : String}
    (hns : el.ns = SCAP12_NS) (hid : require_attr el "id" = .ok i)
    (hsv : require_attr el "schematron-version" = .ok sv) :
    DataStreamCollection.from_xml el =
      (collLoop el.children CollAcc.init).andThen (fun acc =>
        if acc.data_streams.length < 1 then
          .err "The 'data-stream-collection' element needs to have at least 1 child 'data-stream' element."
        else if acc.components.length < 1 then
          .err "The 'data-stream-collection' element needs to have at least 1 child 'component' element."
        else
          .ok ⟨i, sv, acc.data_streams, acc.components,
               acc.extended_components, acc.signatures⟩) := by
  simp [DataStreamCollection.from_xml, hns, hid, hsv, Res.andThen]

/-- C4: on a root in the SCAP 1.2 namespace carrying `id` and
`schematron-version`, the mapping does not succeed exactly when some
recognized child fails to map or a cardinality is violated; with every
child mapping and zero `data-stream` children the error names
'data-stream', with at least one `data-stream` child but zero `component`
children it names 'component', and with at least one of each (all
children mapping) the mapping succeeds. -/
theorem C4_collection_cardinality (el : XElement) (i sv : String)
    (hns : el.ns = SCAP12_NS) (hid : require_attr el "id" = .ok i)
    (hsv : require_attr el "schematron-version" = .ok sv) :
    ((DataStreamCollection.from_xml el).isOk = false ↔
      ((∃ c ∈ el.children, collChildOk c = false) ∨
        dsChildCount el.children = 0 ∨ compChildCount el.children = 0)) ∧
    ((∀ c ∈ el.children, collChildOk c = true) →
      dsChildCount el.children = 0 →
      DataStreamCollection.from_xml el =
        .err "The 'data-stream-collection' element needs to have at least 1 child 'data-stream' element.") ∧
    ((∀ c ∈ el.children, collChildOk c = true) →
      1 ≤ dsChildCount el.children → compChildCount el.children = 0 →
      DataStreamCollection.from_xml el =
        .err "The 'data-stream-collection' element needs to have at least 1 child 'component' element.") ∧
    ((∀ c ∈ el.children, collChildOk c = true) →
      1 ≤ dsChildCount el.children → 1 ≤ compChildCount el.children →
      (DataStreamCollection.from_xml el).isOk = true) := by
  have hunf := coll_from_xml_unfold hns hid hsv
  have p2 : (∀ c ∈ el.children, collChildOk c = true) →
      dsChildCount el.children = 0 →
      DataStreamCollection.from_xml el =
        .err "The 'data-stream-collection' element needs to have at least 1 child 'data-stream' element." := by
    intro hall h0
    obtain ⟨acc2, hloop, hds, _⟩ := collLoop_all_ok CollAcc.init hall
    rw [hunf, hloop]
    simp only [Res.andThen]
    have hz : acc2.data_streams.length = 0 := by
      simp [CollAcc.init, h0] at hds
      simp [hds]
    simp [hz]
  have p3 : (∀ c ∈ el.children, collChildOk c = true) →
      1 ≤ dsChildCount el.children → compChildCount el.children = 0 →
      DataStreamCollection.from_xml el =
        .err "The 'data-stream-collection' element needs to have at least 1 child 'component' element." := by
    intro hall h1 h0
    obtain ⟨acc2, hloop, hds, hcomp⟩ := collLoop_all_ok CollAcc.init hall
    rw [hunf, hloop]
    simp only [Res.andThen]
    have hd : ¬ acc2.data_streams.length < 1 := by
      simp [CollAcc.init] at hds
      omega
    have hz : acc2.components.length = 0 := by
      simp [CollAcc.init, h0] at hcomp
      simp [hcomp]
    simp [hd, hz]
  have p4 : (∀ c ∈ el.children, collChildOk c = true) →
      1 ≤ dsChildCount el.children → 1 ≤ compChildCount el.children →
      (DataStreamCollection.from_xml el).isOk = true := by
    intro hall h1 h2
    obtain ⟨acc2, hloop, hds, hcomp⟩ := collLoop_all_ok CollAcc.init hall
    rw [hunf, hloop]
    simp only [Res.andThen]
    have hd : ¬ acc2.data_streams.length < 1 := by
      simp [CollAcc.init] at hds
      omega
    have hc : ¬ acc2.components.length < 1 := by
      simp [CollAcc.init] at hcomp
      omega
    simp [hd, hc, Res.isOk]
  have pbad : (∃ c ∈ el.children, collChildOk c = false) →
      (DataStreamCollection.from_xml el).isOk = false := by
    rintro ⟨c, hc, hbad⟩
    rw [hunf]
    have hfail := collLoop_bad CollAcc.init hc hbad
    cases hloop : collLoop el.children CollAcc.init with
    | ok a => rw [hloop] at hfail; simp [Res.isOk] at hfail
    | err e => simp [Res.andThen, hloop, Res.isOk]
    | panicked => simp [Res.andThen, hloop, Res.isOk]
  refine ⟨⟨?_, ?_⟩, p2, p3, p4⟩
  · intro hfail
    by_contra hR
    push_neg at hR
    obtain ⟨hno, h1, h2⟩ := hR
    have hall : ∀ c ∈ el.children, collChildOk c = true := by
      intro c hc
      have := hno c hc
      revert this
      cases collChildOk c <;> simp
    rw [p4 hall (Nat.one_le_iff_ne_zero.mpr h1)
      (Nat.one_le_iff_ne_zero.mpr h2)] at hfail
    cases hfail
  · rintro (hbad | h0 | h0)
    · exact pbad hbad
    · by_cases hall : ∀ c ∈ el.children, collChildOk c = true
      · rw [p2 hall h0]; rfl
      · push_neg at hall
        obtain ⟨c, hc, hne⟩ := hall
        refine pbad ⟨c, hc, ?_⟩
        revert hne
        cases collChildOk c <;> simp
    · by_cases hall : ∀ c ∈ el.children, collChildOk c = true
      · by_cases hd0 : dsChildCount el.children = 0
        · rw [p2 hall hd0]; rfl
        · rw [p3 hall (Nat.one_le_iff_ne_zero.mpr hd0) h0]; rfl
      · push_neg at hall
        obtain ⟨c, hc, hne⟩ := hall
        refine pbad ⟨c, hc, ?_⟩
        revert hne
        cases collChildOk c <;> simp

/-- A root with one valid data-stream and one component child. -/
def exRootOk : XElement :=
  .mk "data-stream-collection" SCAP12_NS
    [("id", "col1"), ("schematron-version", "1.2")]
    [.elem exDsOk, .elem exComp2]

/-- A root with a component child but no data-stream child. -/
def exRootNoDs : XElement :=
  .mk "data-stream-collection" SCAP12_NS
    [("id", "col1"), ("schematron-version", "1.2")] [.elem exComp2]

/-- A root with a data-stream child but no component child. -/
def exRootNoComp : XElement :=
  .mk "data-stream-collection" SCAP12_NS
    [("id", "col1"), ("schematron-version", "1.2")] [.elem exDsOk]

/-- Witness for C4 at concrete inputs. -/
theorem C4_collection_cardinality_witness :
    DataStreamCollection.from_xml exRootNoDs =
      .err "The 'data-stream-collection' element needs to have at least 1 child 'data-stream' element." ∧
    DataStreamCollection.from_xml exRootNoComp =
      .err "The 'data-stream-collection' element needs to have at least 1 child 'component' element." ∧
    (DataStreamCollection.from_xml exRootOk).isOk = true ∧
    ((DataStreamCollection.from_xml exRootOk).isOk = false ↔
      ((∃ c ∈ exRootOk.children, collChildOk c = false) ∨
        dsChildCount exRootOk.children = 0 ∨
        compChildCount exRootOk.children = 0)) :=
  ⟨(C4_collection_cardinality exRootNoDs "col1" "1.2" rfl rfl rfl).2.1
      (by decide) (by decide),
   (C4_collection_cardinality exRootNoComp "col1" "1.2" rfl rfl rfl).2.2.1
      (by decide) (by decide) (by decide),
   (C4_collection_cardinality exRootOk "col1" "1.2" rfl rfl rfl).2.2.2
      (by decide) (by decide) (by decide),
   (C4_collection_cardinality exRootOk "col1" "1.2" rfl rfl rfl).1⟩

end Oscap
